import Mathlib

/-!
# AppGrid client SDK: session handling, transport and client factory

A shallow embedding of `dist/bundle.es6.js`.  Promise chains are modelled as
state-passing functions over a `World` (the mutable client config plus the
trace of observable effects: fetch calls, log calls, callback invocations).
The network and the JavaScript built-ins that the bundle only calls
(`fetch`, `qs`, `JSON.stringify`, `parseInt`) are parameters, collected in `Env`.
Where a statement is about the text of a path, the library function `qs.stringify` is
given as the definition `qsStringify` and the environment is required to use it.
-/

namespace AppGrid

/-! ## JavaScript values -/

/-- JavaScript values that flow through the SDK: JSON values plus `undefined`. -/
inductive JsVal where
  | undefined
  | null
  | bool (b : Bool)
  | num (n : Int)
  | str (s : String)
  | arr (xs : List JsVal)
  | obj (kvs : List (String × JsVal))

/-- JavaScript truthiness (`if (v)`, `!v`, `a && b`). -/
def truthy : JsVal → Bool
  | .undefined => false
  | .null => false
  | .bool b => b
  | .num n => n != 0
  | .str s => s != ""
  | .arr _ => true
  | .obj _ => true

/-- The JavaScript `a && b`. -/
def jsAnd (a b : JsVal) : JsVal := if truthy a then b else a

/-- The JavaScript `a || b`. -/
def jsOr (a b : JsVal) : JsVal := if truthy a then a else b

/-- The JavaScript `!a`. -/
def jsNot (a : JsVal) : JsVal := .bool (!truthy a)

/-- Property lookup in an object literal, `undefined` when the key is missing. -/
def lookupKey (k : String) : List (String × JsVal) → JsVal
  | [] => .undefined
  | (k1, v) :: rest => if k1 = k then v else lookupKey k rest

/-- Writes one key of an object, keeping the position of an existing key. -/
def setKey (k : String) (v : JsVal) : List (String × JsVal) → List (String × JsVal)
  | [] => [(k, v)]
  | (k1, v1) :: rest => if k1 = k then (k1, v) :: rest else (k1, v1) :: setKey k v rest

/-- One source argument of `Object.assign(target, source)`. -/
def objAssign (target source : List (String × JsVal)) : List (String × JsVal) :=
  source.foldl (fun acc kv => setKey kv.1 kv.2 acc) target

/-- Reads `v.k`: a TypeError on `null` and `undefined`, `undefined` on other primitives. -/
def getProp (v : JsVal) (k : String) : Option JsVal :=
  match v with
  | .undefined => none
  | .null => none
  | .obj kvs => some (lookupKey k kvs)
  | _ => some .undefined

/-! ## Requests, responses, failures -/

inductive Method where
  | GET
  | POST
  deriving DecidableEq

/-- The arguments of one `fetch(url, options)` call. -/
structure Request where
  method : Method
  url : String
  credentials : String
  headers : List (String × JsVal)
  body : Option String

/-- What the SDK reads of a fetch response. -/
structure Response where
  status : Nat
  statusText : String
  /-- The raw `res.body`. -/
  body : JsVal
  /-- The outcome of `res.json()`, `none` when parsing fails. -/
  json : Option JsVal

/-- Values a promise of the SDK can reject with. -/
inductive Failure where
  /-- The response itself, thrown by `getFetch` (`throw res`). -/
  | response (res : Response)
  /-- An `Error` built with `new Error(message)`. -/
  | error (message : String)
  /-- A TypeError raised by the runtime (destructuring `null`). -/
  | typeError
  /-- A SyntaxError raised by `res.json()`. -/
  | syntaxError
  /-- Any other rejection value (`Promise.reject(v)`, a network failure). -/
  | value (v : JsVal)

/-- The test `res && res.status === 401` of `withSessionHandling`. -/
def Failure.isUnauthorized : Failure → Bool
  | .response res => res.status == 401
  | .value (.obj kvs) =>
    match lookupKey "status" kvs with
    | .num 401 => true
    | _ => false
  | _ => false

/-- Observable effects, in the order they happen. -/
inductive Event where
  | fetch (req : Request)
  | log (message : String) (args : List JsVal)
  | sessionKeyChanged (val : JsVal)
  | deviceIdGenerated (id : String)

/-- The fetch calls of a trace, oldest first. -/
def fetches : List Event → List Request
  | [] => []
  | .fetch req :: rest => req :: fetches rest
  | _ :: rest => fetches rest

/-- The arguments `onSessionKeyChanged` was called with, oldest first. -/
def keyChanges : List Event → List JsVal
  | [] => []
  | .sessionKeyChanged v :: rest => v :: keyChanges rest
  | _ :: rest => keyChanges rest

/-- The client config object (`stampConfig`), read by every request. -/
structure Config where
  appKey : JsVal
  deviceId : JsVal
  gid : JsVal
  clientIp : JsVal
  sessionKey : JsVal

/-- A client instance together with everything it has done so far. -/
structure World where
  config : Config
  trace : List Event

/-- What the bundle imports or calls without defining. -/
structure Env where
  /-- The call `qs.parse(s)`; `none` is `undefined`. -/
  qsParse : Option String → List (String × JsVal)
  /-- The call `qs.stringify(o)`. -/
  qsStringify : List (String × JsVal) → String
  /-- The call `JSON.stringify(v)`. -/
  jsonStringify : JsVal → String
  /-- The call `parseInt(s, 10)`. -/
  parseInt10 : String → JsVal
  /-- The remote end: given the earlier fetch calls and this one, the promise outcome. -/
  fetch : List Request → Request → Except Failure Response

/-- An asynchronous computation: a promise run against the world. -/
abbrev Async (α : Type) := World → Except Failure α × World

/-- A call of `config.log(message, ...args)`. -/
def World.log (w : World) (message : String) (args : List JsVal) : World :=
  { w with trace := w.trace ++ [Event.log message args] }

/-- The `sessionKey` setter installed by `appgrid`: store, then call `onSessionKeyChanged`. -/
def World.setSessionKey (w : World) (val : JsVal) : World :=
  { config := { w.config with sessionKey := val },
    trace := w.trace ++ [Event.sessionKeyChanged val] }

/-! ## Request builder -/

def MIME_TYPE_JSON : String := "application/json"

def HOST : String := "https://appgrid-api.cloud.accedo.tv"

def credentials : String := "same-origin"

def defaultHeaders : List (String × JsVal) := [("accept", .str MIME_TYPE_JSON)]

def getForwardedForHeader (options : Config) : List (String × JsVal) :=
  if !truthy options.clientIp then [] else [("X-FORWARDED-FOR", options.clientIp)]

def getSessionHeader (options : Config) : List (String × JsVal) :=
  if !truthy options.sessionKey then [] else [("X-SESSION", options.sessionKey)]

def getContentTypeHeader : List (String × JsVal) := [("Content-Type", .str MIME_TYPE_JSON)]

/-- The object handed to `qs.stringify` by `getQueryString`. -/
def getQueryObject (config : Config) (existingQs : List (String × JsVal)) :
    List (String × JsVal) :=
  let defaultQs : List (String × JsVal) := [("appKey", config.appKey), ("uuid", config.deviceId)]
  let defaultQs := if truthy config.gid then defaultQs ++ [("gid", config.gid)] else defaultQs
  objAssign (objAssign [] existingQs) defaultQs

def getQueryString (env : Env) (config : Config) (existingQs : List (String × JsVal)) : String :=
  env.qsStringify (getQueryObject config existingQs)

/-- The JavaScript `s.split(c)` on characters. -/
def splitOnChar (c : Char) : List Char → List (List Char)
  | [] => [[]]
  | x :: xs =>
    if x = c then [] :: splitOnChar c xs
    else
      match splitOnChar c xs with
      | [] => [[x]]
      | p :: ps => (x :: p) :: ps

/-- The value `path.split(c)[0]`. -/
def splitFirst (c : Char) (path : String) : String :=
  match splitOnChar c path.data with
  | [] => ""
  | p :: _ => String.mk p

/-- The value `path.split(c)[1]`, `none` when there is no second piece. -/
def splitSecond (c : Char) (path : String) : Option String :=
  match splitOnChar c path.data with
  | _ :: q :: _ => some (String.mk q)
  | _ => none

def getRequestUrlWithQueryString (env : Env) (path : String) (config : Config) : String :=
  let pathWithoutQs := splitFirst '?' path
  let existingQs := env.qsParse (splitSecond '?' path)
  let queryString := getQueryString env config existingQs
  HOST ++ pathWithoutQs ++ "?" ++ queryString

def getExtraHeaders (options : Config) : List (String × JsVal) :=
  objAssign (objAssign [] (getForwardedForHeader options)) (getSessionHeader options)

/-! ## Transport -/

/-- The `fetch` call that `getFetch(path, config)` makes. -/
def getRequest (env : Env) (path : String) (config : Config) : Request :=
  { method := .GET
    url := getRequestUrlWithQueryString env path config
    credentials := credentials
    headers := objAssign (objAssign [] defaultHeaders) (getExtraHeaders config)
    body := none }

def getFetch (env : Env) (path : String) : Async Response := fun w =>
  let req := getRequest env path w.config
  let w1 := w.log ("Sending a GET request to: " ++ req.url ++ " with the following headers")
    [.obj req.headers]
  let w2 : World := { w1 with trace := w1.trace ++ [Event.fetch req] }
  match env.fetch (fetches w.trace) req with
  | .error e => (.error e, w2)
  | .ok res =>
    if res.status ≥ 400 then
      (.error (.response res), w2.log "GET failed with status" [.num res.status])
    else (.ok res, w2)

def grab (env : Env) (path : String) : Async JsVal := fun w =>
  let w1 := w.log "Requesting" [.str path]
  match getFetch env path w1 with
  | (.error e, w2) => (.error e, w2)
  | (.ok res, w2) =>
    match res.json with
    | none => (.error .syntaxError, w2)
    | some response => (.ok response, w2.log "GET response" [response])

def grabRaw (env : Env) (path : String) : Async JsVal := fun w =>
  match getFetch env path w with
  | (.error e, w2) => (.error e, w2)
  | (.ok response, w2) => (.ok response.body, w2)

/-- The default parameter `body = \x7b\x7d` of `post`. -/
def defaultBody (body : JsVal) : JsVal :=
  match body with
  | .undefined => .obj []
  | b => b

/-- The `fetch` call that `post(path, config, body)` makes. -/
def postRequest (env : Env) (path : String) (config : Config) (body : JsVal) : Request :=
  { method := .POST
    url := getRequestUrlWithQueryString env path config
    credentials := credentials
    headers := objAssign (objAssign (objAssign [] defaultHeaders) getContentTypeHeader)
      (getExtraHeaders config)
    body := some (env.jsonStringify (defaultBody body)) }

/-- The message of the `Error` that `post` throws on a non-200 response. -/
def postFailureMessage (res : Response) : String :=
  "AppGrid POST request returned a non-200 response. Status Code: "
    ++ toString res.status ++ ". Status Text: " ++ res.statusText

def post (env : Env) (path : String) (body : JsVal) : Async JsVal := fun w =>
  let req := postRequest env path w.config body
  let w1 := w.log
    ("Sending a POST request to: " ++ req.url ++ ". With the following headers and body: ")
    [.obj req.headers, defaultBody body]
  let w2 : World := { w1 with trace := w1.trace ++ [Event.fetch req] }
  match env.fetch (fetches w.trace) req with
  | .error e => (.error e, w2)
  | .ok res =>
    if res.status ≠ 200 then
      (.error (.error (postFailureMessage res)), w2)
    else
      let result := JsVal.obj [("status", .num res.status), ("statusText", .str res.statusText)]
      (.ok result, w2.log "POST response: " [result])

/-! ## Session manager -/

def getSessionKey (w : World) : JsVal := w.config.sessionKey

def createSession (env : Env) : Async JsVal := fun w =>
  let w1 := if truthy w.config.sessionKey then w.setSessionKey .null else w
  match grab env "/session" w1 with
  | (.error e, w2) => (.error e, w2)
  | (.ok json, w2) =>
    match getProp json "sessionKey" with
    | none => (.error .typeError, w2)
    | some sessionKey => (.ok sessionKey, w2.setSessionKey sessionKey)

def withSessionHandling {α : Type} (env : Env) (next : Async α) : Async α := fun w =>
  if truthy (getSessionKey w) then
    match next w with
    | (.ok a, w1) => (.ok a, w1)
    | (.error res, w1) =>
      if res.isUnauthorized then
        match createSession env w1 with
        | (.error e, w2) => (.error e, w2)
        | (.ok _, w2) => next w2
      else (.error res, w1)
  else
    match createSession env w with
    | (.error e, w1) => (.error e, w1)
    | (.ok _, w1) => next w1

/-! ## Resource facades -/

/-- The facade `getAssetById(id)`: no session wrapping. -/
def getAssetById (env : Env) (id : String) : Async JsVal :=
  grabRaw env ("/asset/" ++ id)

/-- The facade `getAllAssets()`. -/
def getAllAssets (env : Env) : Async JsVal :=
  withSessionHandling env (grab env "/asset")

def sendUsageEvent (env : Env) (eventType : String) (retentionTime : JsVal) : Async JsVal :=
  let payload : List (String × JsVal) := [("eventType", .str eventType)]
  let payload :=
    match retentionTime with
    | .undefined => payload
    | t => payload ++ [("retentionTime", t)]
  withSessionHandling env (post env "/event/log" (.obj payload))

def sendUsageStartEvent (env : Env) : Async JsVal :=
  sendUsageEvent env "START" .undefined

def sendUsageStopEvent (env : Env) (retentionTimeInSeconds : JsVal) : Async JsVal :=
  sendUsageEvent env "QUIT" retentionTimeInSeconds

def DEBUG : String := "debug"

def INFO : String := "info"

def WARN : String := "warn"

def ERROR : String := "error"

def LOG_LEVELS : List String := [DEBUG, INFO, WARN, ERROR]

mutual
/-- The JavaScript string conversion used by template literals and by `+` with a string. -/
def toStr : JsVal → String
  | .undefined => "undefined"
  | .null => "null"
  | .bool b => if b then "true" else "false"
  | .num n => toString n
  | .str s => s
  | .arr xs => joinStr xs
  | .obj _ => "[object Object]"
/-- The conversion of an array: elements joined by commas, `null` and `undefined` empty. -/
def joinStr : List JsVal → String
  | [] => ""
  | [x] => elemStr x
  | x :: y :: rest => elemStr x ++ "," ++ joinStr (y :: rest)
/-- One element of an array being joined. -/
def elemStr : JsVal → String
  | .undefined => ""
  | .null => ""
  | .bool b => if b then "true" else "false"
  | .num n => toString n
  | .str s => s
  | .arr xs => joinStr xs
  | .obj _ => "[object Object]"
end

/-- The default parameter `= 0` of `getConcatenatedCode`. -/
def defaultZero (v : JsVal) : JsVal :=
  match v with
  | .undefined => .num 0
  | x => x

def getConcatenatedCode (env : Env) (facilityCode errorCode : JsVal) : JsVal :=
  env.parseInt10 (toStr (defaultZero facilityCode) ++ toStr (defaultZero errorCode))

def getLogMessage (env : Env) (message metadata : JsVal) : String :=
  toStr message ++ (if !truthy metadata then "" else " | Metadata: " ++ env.jsonStringify metadata)

/-- The properties of `details` that `getLogEvent` reads (`undefined` when missing). -/
structure LogDetails where
  message : JsVal
  facilityCode : JsVal
  errorCode : JsVal
  dim1 : JsVal
  dim2 : JsVal
  dim3 : JsVal
  dim4 : JsVal

def getLogEvent (env : Env) (details : LogDetails) (metadata : JsVal) : JsVal :=
  let message := getLogMessage env details.message metadata
  let code := getConcatenatedCode env details.facilityCode details.errorCode
  let dimensions := JsVal.obj
    [("dim1", details.dim1), ("dim2", details.dim2), ("dim3", details.dim3), ("dim4", details.dim4)]
  .obj [("code", code), ("message", .str message), ("dimensions", dimensions)]

def postLog (env : Env) (level : String) (log : JsVal) : Async JsVal :=
  withSessionHandling env (post env ("/application/log/" ++ level) log)

/-- The facade `sendLog(level, details, ...metadata)`. -/
def sendLog (env : Env) (level : String) (details : LogDetails) (metadata : List JsVal) :
    Async JsVal := fun w =>
  if !LOG_LEVELS.contains level then (.error (.value (.str "Unsupported log level")), w)
  else
    let log := getLogEvent env details (.arr metadata)
    postLog env level log w

def APPLICATION_SCOPE : String := "user"

def APPLICATION_GROUP_SCOPE : String := "group"

def requestGet (env : Env) (path : String) : Async JsVal :=
  withSessionHandling env (grab env path)

def requestPost (env : Env) (path : String) (data : JsVal) : Async JsVal :=
  withSessionHandling env (post env path data)

def setUserData (env : Env) (scope userName : String) (data : JsVal) : Async JsVal :=
  requestPost env ("/" ++ scope ++ "/" ++ userName) data

def setUserDataByKey (env : Env) (scope userName key : String) (data : JsVal) : Async JsVal :=
  requestPost env ("/" ++ scope ++ "/" ++ userName ++ "/" ++ key) data

/-! ## Client factory -/

/-- The properties of the object given to `appgrid` that the factory reads. -/
structure InputConfig where
  gid : JsVal
  appKey : JsVal
  deviceId : JsVal
  sessionKey : JsVal

def checkUsability (c : InputConfig) : JsVal :=
  jsOr
    (jsOr (jsAnd (jsAnd c.appKey (jsNot c.deviceId)) (jsNot c.sessionKey))
      (jsAnd (jsAnd c.appKey c.deviceId) (jsNot c.sessionKey)))
    (jsAnd (jsAnd c.appKey c.deviceId) c.sessionKey)

def usabilityMessage : String :=
  "You must provide an appKey | an appKey and a deviceId | an appKey, a deviceId and a sessionKey"

/-- The factory `appgrid(config)`; `uuid` is what `appgrid.generateUuid()` returns when called.
The result is the new client with the callbacks fired during construction in its trace. -/
def appgrid (uuid : String) (config : InputConfig) : Except Failure World :=
  if !truthy (checkUsability config) then .error (.error usabilityMessage)
  else
    let generated := !truthy config.deviceId
    let deviceId := if generated then JsVal.str uuid else config.deviceId
    let trace := if generated then [Event.deviceIdGenerated uuid] else []
    .ok { config :=
            { deviceId := deviceId, gid := config.gid, appKey := config.appKey,
              clientIp := .undefined, sessionKey := config.sessionKey },
          trace := trace }

/-- The arguments `onDeviceIdGenerated` was called with, oldest first. -/
def deviceIdCalls : List Event → List String
  | [] => []
  | .deviceIdGenerated id :: rest => id :: deviceIdCalls rest
  | _ :: rest => deviceIdCalls rest

/-! ## Entries facade and time of day -/

/-- The `at` parameter of the entries facade: a string, an object with `toISOString`
(carrying what that method returns), or any other value. -/
inductive AtParam where
  | text (s : String)
  | date (iso : String)
  | other

/-- The properties of `params` that `getPathWithQs` reads; `none` is a missing array. -/
structure EntryParams where
  id : Option (List JsVal)
  typeId : JsVal
  /-- The property `alias` (a reserved word here). -/
  aliases : Option (List JsVal)
  preview : JsVal
  atParam : AtParam
  offset : JsVal
  size : JsVal

/-- The object `qsParams` that `getPathWithQs` fills in. -/
def getPathQsParams (params : EntryParams) : List (String × JsVal) :=
  let qsParams : List (String × JsVal) := []
  let qsParams :=
    match params.id with
    | some id => if id.length ≠ 0 then setKey "id" (.str (joinStr id)) qsParams else qsParams
    | none => qsParams
  let qsParams :=
    match params.aliases with
    | some aliases =>
      if aliases.length ≠ 0 then setKey "alias" (.str (joinStr aliases)) qsParams else qsParams
    | none => qsParams
  let qsParams := if truthy params.preview then setKey "preview" (.bool true) qsParams else qsParams
  match params.atParam with
  | .text s => setKey "at" (.str s) qsParams
  | .date iso => setKey "at" (.str iso) qsParams
  | .other => qsParams

/-- The object handed to `qs.stringify` by `getPathWithQs`. -/
def getPathQueryObject (params : EntryParams) : List (String × JsVal) :=
  objAssign (objAssign [] (getPathQsParams params))
    [("typeId", params.typeId), ("offset", params.offset), ("size", params.size)]

def getPathWithQs (env : Env) (path : String) (params : EntryParams) : String :=
  let queryString := env.qsStringify (getPathQueryObject params)
  path ++ "?" ++ queryString

def request (env : Env) (path : String) (params : EntryParams) : Async JsVal :=
  let pathWithQs := getPathWithQs env path params
  withSessionHandling env (grab env pathWithQs)

/-- The facade `getEntries(params)`. -/
def getEntries (env : Env) (params : EntryParams) : Async JsVal :=
  request env "/content/entries" params

/-- The function `getCurrentTimeOfDayDimValue`, given what `new Date().getHours()` returns. -/
def getCurrentTimeOfDayDimValue (hour : Nat) : String :=
  if hour ≥ 1 ∧ hour < 5 then "01-05"
  else if hour ≥ 5 ∧ hour < 9 then "05-09"
  else if hour ≥ 9 ∧ hour < 13 then "09-13"
  else if hour ≥ 13 ∧ hour < 17 then "13-17"
  else if hour ≥ 17 ∧ hour < 21 then "17-21"
  else "21-01"

/-- The six labels of the documentation, each with the hours of its range. -/
def hourRanges : List (String × List Nat) :=
  [("01-05", [1, 2, 3, 4]), ("05-09", [5, 6, 7, 8]), ("09-13", [9, 10, 11, 12]),
   ("13-17", [13, 14, 15, 16]), ("17-21", [17, 18, 19, 20]), ("21-01", [21, 22, 23, 0])]

/-! ## The library `qs`

The bundle imports `qs` and calls `qs.stringify(o)` with the default options.  This is
that function on the values the SDK builds: percent-encoding of keys and values, nested
values written with bracketed keys, `undefined` left out, pieces joined by `&`. -/

/-- One uppercase hexadecimal digit. -/
def hexDigit (d : Nat) : Char :=
  if d < 10 then Char.ofNat (48 + d) else Char.ofNat (55 + d)

/-- One byte as the library writes it: `%` and two hexadecimal digits. -/
def percentByte (b : Nat) : List Char :=
  ['%', hexDigit (b / 16), hexDigit (b % 16)]

/-- The characters `utils.encode` keeps: letters, digits, `-`, `.`, `_` and `~`. -/
def isUnreserved (n : Nat) : Bool :=
  n == 0x2D || n == 0x2E || n == 0x5F || n == 0x7E
    || (0x30 ≤ n && n ≤ 0x39) || (0x41 ≤ n && n ≤ 0x5A) || (0x61 ≤ n && n ≤ 0x7A)

/-- One character through `utils.encode`: kept, or its UTF-8 bytes percent-encoded. -/
def encodeChar (c : Char) : List Char :=
  let n := c.toNat
  if isUnreserved n then [c]
  else if n < 0x80 then percentByte n
  else if n < 0x800 then percentByte (0xC0 + n / 64) ++ percentByte (0x80 + n % 64)
  else if n < 0x10000 then
    percentByte (0xE0 + n / 4096) ++ percentByte (0x80 + n / 64 % 64)
      ++ percentByte (0x80 + n % 64)
  else
    percentByte (0xF0 + n / 262144) ++ percentByte (0x80 + n / 4096 % 64)
      ++ percentByte (0x80 + n / 64 % 64) ++ percentByte (0x80 + n % 64)

def encodeChars : List Char → List Char
  | [] => []
  | c :: rest => encodeChar c ++ encodeChars rest

/-- The function `utils.encode(str)` of `qs`. -/
def qsEncode (s : String) : String := String.mk (encodeChars s.data)

mutual
/-- The inner `stringify(obj, key, ...)` of `qs`: the pieces one value contributes. -/
def qsPieces (key : String) : JsVal → List String
  | .undefined => []
  | .null => [qsEncode key ++ "=" ++ qsEncode ""]
  | .bool b => [qsEncode key ++ "=" ++ qsEncode (if b then "true" else "false")]
  | .num n => [qsEncode key ++ "=" ++ qsEncode (toString n)]
  | .str s => [qsEncode key ++ "=" ++ qsEncode s]
  | .arr xs => qsArrayPieces key 0 xs
  | .obj kvs => qsObjectPieces key kvs
/-- The elements of an array, keyed `key[0]`, `key[1]`, and so on. -/
def qsArrayPieces (key : String) (i : Nat) : List JsVal → List String
  | [] => []
  | x :: rest => qsPieces (key ++ "[" ++ toString i ++ "]") x ++ qsArrayPieces key (i + 1) rest
/-- The properties of a nested object, keyed `key[name]`. -/
def qsObjectPieces (key : String) : List (String × JsVal) → List String
  | [] => []
  | (k, v) :: rest => qsPieces (key ++ "[" ++ k ++ "]") v ++ qsObjectPieces key rest
end

/-- The pieces of a whole object, in the order of its keys. -/
def qsStringifyPieces : List (String × JsVal) → List String
  | [] => []
  | (k, v) :: rest => qsPieces k v ++ qsStringifyPieces rest

/-- The function `qs.stringify(o)`: the pieces joined by `&`. -/
def qsStringify (o : List (String × JsVal)) : String :=
  "&".intercalate (qsStringifyPieces o)

/-! ## The request builder of `src/apiHelper.js`

The same two functions as in the bundle, reading `options.appId` and `options.uuid` and
adding no host.  The options are a plain object. -/

namespace ApiHelper

/-- The object handed to `qs.stringify` by `getQueryString` of `src/apiHelper.js`. -/
def getQueryObject (options existingQs : List (String × JsVal)) : List (String × JsVal) :=
  let defaultQs : List (String × JsVal) :=
    [("appKey", lookupKey "appId" options), ("uuid", lookupKey "uuid" options)]
  let defaultQs :=
    if truthy (lookupKey "gid" options) then defaultQs ++ [("gid", lookupKey "gid" options)]
    else defaultQs
  objAssign (objAssign [] existingQs) defaultQs

def getQueryString (env : Env) (options existingQs : List (String × JsVal)) : String :=
  env.qsStringify (getQueryObject options existingQs)

def getRequestUrlWithQueryString (env : Env) (url : String)
    (options : List (String × JsVal)) : String :=
  let urlWithoutQs := splitFirst '?' url
  let existingQs := env.qsParse (splitSecond '?' url)
  let queryString := getQueryString env options existingQs
  urlWithoutQs ++ "?" ++ queryString

end ApiHelper

/-! ## Authenticated operations

Every facade hands `withSessionHandling` one of two closures:
`() => grab(path, config)` or `() => post(path, config, body)`. -/

/-- The closures the facades pass to `withSessionHandling`. -/
inductive Operation where
  | get (path : String)
  | post (path : String) (body : JsVal)

/-- Calling the closure. -/
def Operation.run (env : Env) : Operation → Async JsVal
  | .get path => grab env path
  | .post path body => AppGrid.post env path body

/-- The single `fetch` call one invocation of the closure makes under `config`. -/
def Operation.request (env : Env) : Operation → Config → Request
  | .get path, config => getRequest env path config
  | .post path body, config => postRequest env path config body

/-- The config as `createSession` leaves it before requesting: a truthy key is set to `null`. -/
def clearedConfig (config : Config) : Config :=
  if truthy config.sessionKey then { config with sessionKey := .null } else config

/-- The `fetch` call `createSession` makes for a client whose config is `config`. -/
def sessionRequest (env : Env) (config : Config) : Request :=
  getRequest env "/session" (clearedConfig config)

/-- The world in which `createSession` starts its request. -/
def clearedWorld (w : World) : World :=
  if truthy w.config.sessionKey then w.setSessionKey .null else w

/-- The usability condition in the words of the specification: an application key is given,
and it is not the case that a session key is given without a device identifier. -/
def Usable (c : InputConfig) : Prop :=
  truthy c.appKey = true ∧ ¬ (truthy c.sessionKey = true ∧ truthy c.deviceId = false)

/-! ## Sample environment used to exercise the statements -/

def sampleUnauthorized : Response :=
  { status := 401, statusText := "Unauthorized", body := .null, json := none }

def sampleSession : Response :=
  { status := 200, statusText := "OK", body := .null,
    json := some (.obj [("sessionKey", .str "fresh")]) }

def sampleProfile : Response :=
  { status := 200, statusText := "OK", body := .str "raw",
    json := some (.obj [("name", .str "demo")]) }

def sampleServerError : Response :=
  { status := 500, statusText := "Server Error", body := .null, json := none }

/-- A remote end that answers by position: 401, then a session, then a profile, then 500. -/
def sampleFetch (history : List Request) (_req : Request) : Except Failure Response :=
  match history.length with
  | 0 => .ok sampleUnauthorized
  | 1 => .ok sampleSession
  | 2 => .ok sampleProfile
  | _ => .ok sampleServerError

def sampleEnv : Env :=
  { qsParse := fun _ => []
    qsStringify := fun _ => "q"
    jsonStringify := fun _ => "b"
    parseInt10 := fun _ => .num 0
    fetch := sampleFetch }

def sampleConfig (sessionKey : JsVal) : Config :=
  { appKey := .str "app", deviceId := .str "dev", gid := .undefined, clientIp := .undefined,
    sessionKey := sessionKey }

/-- A client holding the session key `old` that has made no request yet. -/
def sampleWorld : World := { config := sampleConfig (.str "old"), trace := [] }

/-- A client without session key whose first request will be answered as the second one. -/
def sampleFreshWorld : World :=
  { config := sampleConfig .undefined,
    trace := [Event.fetch (getRequest sampleEnv "/warmup" (sampleConfig .undefined))] }

/-- A client without session key that has made no request yet. -/
def sampleNewWorld : World := { config := sampleConfig .undefined, trace := [] }

/-- A client holding the session key `old` whose next request is answered as the second one. -/
def sampleStaleWorld : World :=
  { config := sampleConfig (.str "old"),
    trace := [Event.fetch (getRequest sampleEnv "/warmup" (sampleConfig (.str "old")))] }

/-- A client holding the session key `old` whose next request is answered with status 500. -/
def sampleBusyWorld : World :=
  { config := sampleConfig (.str "old"),
    trace := [Event.fetch (getRequest sampleEnv "/a" (sampleConfig (.str "old"))),
              Event.fetch (getRequest sampleEnv "/b" (sampleConfig (.str "old"))),
              Event.fetch (getRequest sampleEnv "/c" (sampleConfig (.str "old")))] }

/-- An environment whose remote end answers every request with status 401. -/
def sampleDownEnv : Env := { sampleEnv with fetch := fun _ _ => .ok sampleUnauthorized }

/-- A log entry with a message only. -/
def sampleDetails : LogDetails :=
  { message := .str "boom", facilityCode := .undefined, errorCode := .undefined,
    dim1 := .undefined, dim2 := .undefined, dim3 := .undefined, dim4 := .undefined }

/-- An environment whose query parser finds a spoofed `appKey` and a `json` flag, and whose
remote end answers with a session and then with status 401. -/
def sampleQueryEnv : Env :=
  { sampleEnv with
    qsParse := fun _ => [("appKey", .str "spoofed"), ("json", .str "true")]
    fetch := fun history _ =>
      match history.length with
      | 0 => .ok sampleSession
      | _ => .ok sampleUnauthorized }

/-- One `key=value` piece of a query: the text before the first `=` and the text after. -/
def samplePiece (piece : List Char) : String × JsVal :=
  (String.mk (piece.takeWhile (fun c => c != '=')),
    .str (String.mk ((piece.dropWhile (fun c => c != '=')).drop 1)))

/-- A reader of queries made of `key=value` pieces joined by `&`.  It returns what
`qs.parse` returns when the keys are distinct and no key or value has a bracket, a percent
sign or a plus sign. -/
def sampleFlatParse : Option String → List (String × JsVal)
  | none => []
  | some q => if q = "" then [] else (splitOnChar '&' q.data).map samplePiece

/-- An environment with the library `qs.stringify` and the reader of flat queries. -/
def sampleLibraryEnv : Env :=
  { sampleEnv with qsParse := sampleFlatParse, qsStringify := qsStringify }

/-- An options object in the shape the tests pass: `appKey` and `uuid`. -/
def sampleHelperOptions : List (String × JsVal) :=
  [("appKey", .str "app"), ("uuid", .str "dev")]

/-- The parameters `\x7b id: ["a", "b"], alias: [] \x7d`. -/
def sampleParams : EntryParams :=
  { id := some [.str "a", .str "b"], typeId := .str "t", aliases := some [], preview := .undefined,
    atParam := .other, offset := .undefined, size := .undefined }

/-- A configuration with an application key only. -/
def sampleAppKeyOnly : InputConfig :=
  { gid := .undefined, appKey := .str "56ea6a370db1bf032c9df5cb", deviceId := .undefined,
    sessionKey := .undefined }

/-- A configuration with an application key and a device identifier. -/
def sampleWithDevice : InputConfig :=
  { gid := .str "g", appKey := .str "56ea6a370db1bf032c9df5cb", deviceId := .str "gregTestingSDK",
    sessionKey := .undefined }

/-- An environment whose JSON rendering writes the empty array as `[]`. -/
def sampleJsonEnv : Env :=
  { sampleEnv with
    jsonStringify := fun v =>
      match v with
      | .arr [] => "[]"
      | _ => "null" }

/-! ## Trace lemmas -/

theorem fetches_append (a b : List Event) : fetches (a ++ b) = fetches a ++ fetches b := by
  induction a with
  | nil => rfl
  | cons e rest ih => cases e <;> simp [fetches, ih]

theorem keyChanges_append (a b : List Event) :
    keyChanges (a ++ b) = keyChanges a ++ keyChanges b := by
  induction a with
  | nil => rfl
  | cons e rest ih => cases e <;> simp [keyChanges, ih]

theorem getFetch_config (env : Env) (path : String) (w : World) :
    (getFetch env path w).2.config = w.config := by
  unfold getFetch
  simp only []
  split
  · rfl
  · split <;> rfl

theorem getFetch_fetches (env : Env) (path : String) (w : World) :
    fetches (getFetch env path w).2.trace = fetches w.trace ++ [getRequest env path w.config] := by
  unfold getFetch
  simp only []
  split
  · simp [World.log, fetches_append, fetches]
  · split <;> simp [World.log, fetches_append, fetches]

theorem getFetch_keyChanges (env : Env) (path : String) (w : World) :
    keyChanges (getFetch env path w).2.trace = keyChanges w.trace := by
  unfold getFetch
  simp only []
  split
  · simp [World.log, keyChanges_append, keyChanges]
  · split <;> simp [World.log, keyChanges_append, keyChanges]

theorem grab_config (env : Env) (path : String) (w : World) :
    (grab env path w).2.config = w.config := by
  have h := getFetch_config env path (w.log "Requesting" [.str path])
  unfold grab
  simp only []
  split
  · next e w2 heq => rw [heq] at h; exact h
  · next res w2 heq =>
    rw [heq] at h
    split
    · exact h
    · exact h

theorem grab_fetches (env : Env) (path : String) (w : World) :
    fetches (grab env path w).2.trace = fetches w.trace ++ [getRequest env path w.config] := by
  have h := getFetch_fetches env path (w.log "Requesting" [.str path])
  have hl : fetches (w.log "Requesting" [.str path]).trace = fetches w.trace := by
    simp [World.log, fetches_append, fetches]
  have hc : (w.log "Requesting" [.str path]).config = w.config := rfl
  rw [hl, hc] at h
  unfold grab
  simp only []
  split
  · next e w2 heq => rw [heq] at h; exact h
  · next res w2 heq =>
    rw [heq] at h
    split
    · exact h
    · simpa [World.log, fetches_append, fetches] using h

theorem grab_keyChanges (env : Env) (path : String) (w : World) :
    keyChanges (grab env path w).2.trace = keyChanges w.trace := by
  have h := getFetch_keyChanges env path (w.log "Requesting" [.str path])
  have hl : keyChanges (w.log "Requesting" [.str path]).trace = keyChanges w.trace := by
    simp [World.log, keyChanges_append, keyChanges]
  rw [hl] at h
  unfold grab
  simp only []
  split
  · next e w2 heq => rw [heq] at h; exact h
  · next res w2 heq =>
    rw [heq] at h
    split
    · exact h
    · simpa [World.log, keyChanges_append, keyChanges] using h

theorem grabRaw_config (env : Env) (path : String) (w : World) :
    (grabRaw env path w).2.config = w.config := by
  have h := getFetch_config env path w
  unfold grabRaw
  split
  · next e w2 heq => rw [heq] at h; exact h
  · next res w2 heq => rw [heq] at h; exact h

theorem grabRaw_fetches (env : Env) (path : String) (w : World) :
    fetches (grabRaw env path w).2.trace = fetches w.trace ++ [getRequest env path w.config] := by
  have h := getFetch_fetches env path w
  unfold grabRaw
  split
  · next e w2 heq => rw [heq] at h; exact h
  · next res w2 heq => rw [heq] at h; exact h

theorem grabRaw_keyChanges (env : Env) (path : String) (w : World) :
    keyChanges (grabRaw env path w).2.trace = keyChanges w.trace := by
  have h := getFetch_keyChanges env path w
  unfold grabRaw
  split
  · next e w2 heq => rw [heq] at h; exact h
  · next res w2 heq => rw [heq] at h; exact h

theorem post_config (env : Env) (path : String) (body : JsVal) (w : World) :
    (post env path body w).2.config = w.config := by
  unfold post
  simp only []
  split
  · rfl
  · split <;> rfl

theorem post_fetches (env : Env) (path : String) (body : JsVal) (w : World) :
    fetches (post env path body w).2.trace
      = fetches w.trace ++ [postRequest env path w.config body] := by
  unfold post
  simp only []
  split
  · simp [World.log, fetches_append, fetches]
  · split <;> simp [World.log, fetches_append, fetches]

theorem post_keyChanges (env : Env) (path : String) (body : JsVal) (w : World) :
    keyChanges (post env path body w).2.trace = keyChanges w.trace := by
  unfold post
  simp only []
  split
  · simp [World.log, keyChanges_append, keyChanges]
  · split <;> simp [World.log, keyChanges_append, keyChanges]

theorem run_config (env : Env) (op : Operation) (w : World) :
    (op.run env w).2.config = w.config := by
  cases op with
  | get path => exact grab_config env path w
  | post path body => exact post_config env path body w

theorem run_fetches (env : Env) (op : Operation) (w : World) :
    fetches (op.run env w).2.trace = fetches w.trace ++ [op.request env w.config] := by
  cases op with
  | get path => exact grab_fetches env path w
  | post path body => exact post_fetches env path body w

theorem run_keyChanges (env : Env) (op : Operation) (w : World) :
    keyChanges (op.run env w).2.trace = keyChanges w.trace := by
  cases op with
  | get path => exact grab_keyChanges env path w
  | post path body => exact post_keyChanges env path body w

/-! ## Session creation lemmas -/

theorem clearedWorld_config (w : World) : (clearedWorld w).config = clearedConfig w.config := by
  unfold clearedWorld clearedConfig
  split <;> rfl

theorem clearedWorld_fetches (w : World) : fetches (clearedWorld w).trace = fetches w.trace := by
  unfold clearedWorld
  split <;> simp [World.setSessionKey, fetches_append, fetches]

theorem clearedWorld_keyChanges (w : World) :
    keyChanges (clearedWorld w).trace
      = keyChanges w.trace ++ (if truthy w.config.sessionKey then [JsVal.null] else []) := by
  unfold clearedWorld
  split <;> simp [World.setSessionKey, keyChanges_append, keyChanges]

theorem createSession_unfold (env : Env) (w : World) :
    createSession env w =
      match grab env "/session" (clearedWorld w) with
      | (.error e, w2) => (.error e, w2)
      | (.ok json, w2) =>
        match getProp json "sessionKey" with
        | none => (.error .typeError, w2)
        | some sessionKey => (.ok sessionKey, w2.setSessionKey sessionKey) := rfl

theorem createSession_fetches (env : Env) (w : World) :
    fetches (createSession env w).2.trace = fetches w.trace ++ [sessionRequest env w.config] := by
  have h := grab_fetches env "/session" (clearedWorld w)
  rw [clearedWorld_fetches, clearedWorld_config] at h
  rw [createSession_unfold]
  unfold sessionRequest
  split
  · next e w2 heq => rw [heq] at h; exact h
  · next json w2 heq =>
    rw [heq] at h
    split
    · exact h
    · simpa [World.setSessionKey, fetches_append, fetches] using h

theorem createSession_ok_sessionKey (env : Env) (w : World) (k : JsVal)
    (hk : (createSession env w).1 = .ok k) :
    (createSession env w).2.config = { w.config with sessionKey := k } := by
  have h := grab_config env "/session" (clearedWorld w)
  rw [clearedWorld_config] at h
  rw [createSession_unfold] at hk ⊢
  split at hk
  · simp at hk
  · next json w2 heq =>
    rw [heq] at h
    simp only [] at h
    split at hk
    · simp at hk
    · next sk hsk =>
      simp only [Except.ok.injEq] at hk
      subst hk
      simp only [heq, hsk, World.setSessionKey, h]
      unfold clearedConfig
      split <;> rfl

theorem createSession_keyChanges_ok (env : Env) (w : World) (k : JsVal)
    (hk : (createSession env w).1 = .ok k) :
    keyChanges (createSession env w).2.trace
      = keyChanges w.trace ++ (if truthy w.config.sessionKey then [JsVal.null, k] else [k]) := by
  have h := grab_keyChanges env "/session" (clearedWorld w)
  rw [clearedWorld_keyChanges] at h
  rw [createSession_unfold] at hk ⊢
  split at hk
  · simp at hk
  · next json w2 heq =>
    rw [heq] at h
    simp only [] at h
    split at hk
    · simp at hk
    · next sk hsk =>
      simp only [Except.ok.injEq] at hk
      subst hk
      simp only [heq, hsk, World.setSessionKey, keyChanges_append, h]
      split <;> simp [keyChanges]

theorem createSession_keyChanges_error (env : Env) (w : World) (e : Failure)
    (he : (createSession env w).1 = .error e) :
    keyChanges (createSession env w).2.trace
      = keyChanges w.trace ++ (if truthy w.config.sessionKey then [JsVal.null] else []) := by
  have h := grab_keyChanges env "/session" (clearedWorld w)
  rw [clearedWorld_keyChanges] at h
  rw [createSession_unfold] at he ⊢
  split at he
  · next e2 w2 heq => rw [heq] at h; simpa [heq] using h
  · next json w2 heq =>
    rw [heq] at h
    simp only [] at h
    split at he
    · next hsk => simpa [heq, hsk] using h
    · simp at he

/-! ## Session handling lemmas -/

theorem withSessionHandling_no_key {α : Type} (env : Env) (next : Async α) (w : World)
    (hno : truthy w.config.sessionKey = false) :
    withSessionHandling env next w =
      match createSession env w with
      | (.error e, w1) => (.error e, w1)
      | (.ok _, w1) => next w1 := by
  unfold withSessionHandling getSessionKey
  simp [hno]

theorem withSessionHandling_key {α : Type} (env : Env) (next : Async α) (w : World)
    (hkey : truthy w.config.sessionKey = true) :
    withSessionHandling env next w =
      match next w with
      | (.ok a, w1) => (.ok a, w1)
      | (.error res, w1) =>
        if res.isUnauthorized then
          match createSession env w1 with
          | (.error e, w2) => (.error e, w2)
          | (.ok _, w2) => next w2
        else (.error res, w1) := by
  unfold withSessionHandling getSessionKey
  simp [hkey]

theorem withSessionHandling_no_key_ok {α : Type} (env : Env) (next : Async α) (w : World)
    (k : JsVal) (hno : truthy w.config.sessionKey = false)
    (hk : (createSession env w).1 = .ok k) :
    withSessionHandling env next w = next (createSession env w).2 := by
  rw [withSessionHandling_no_key env next w hno]
  split
  · next e w1 heq => rw [heq] at hk; simp at hk
  · next x w1 heq => rw [heq]

theorem withSessionHandling_no_key_error {α : Type} (env : Env) (next : Async α) (w : World)
    (e : Failure) (hno : truthy w.config.sessionKey = false)
    (he : (createSession env w).1 = .error e) :
    withSessionHandling env next w = (.error e, (createSession env w).2) := by
  rw [withSessionHandling_no_key env next w hno]
  split
  · next e1 w1 heq => rw [heq] at he ⊢; simp at he; rw [he]
  · next x w1 heq => rw [heq] at he; simp at he

theorem withSessionHandling_pass {α : Type} (env : Env) (next : Async α) (w : World)
    (f : Failure) (hkey : truthy w.config.sessionKey = true)
    (h1 : (next w).1 = .error f) (hf : f.isUnauthorized = false) :
    withSessionHandling env next w = next w := by
  rw [withSessionHandling_key env next w hkey]
  split
  · next a w1 heq => rw [heq]
  · next res w1 heq =>
    rw [heq] at h1 ⊢
    simp at h1
    subst h1
    simp [hf]

theorem withSessionHandling_retry_ok {α : Type} (env : Env) (next : Async α) (w : World)
    (f : Failure) (k : JsVal) (hkey : truthy w.config.sessionKey = true)
    (h1 : (next w).1 = .error f) (hf : f.isUnauthorized = true)
    (hk : (createSession env (next w).2).1 = .ok k) :
    withSessionHandling env next w = next (createSession env (next w).2).2 := by
  rw [withSessionHandling_key env next w hkey]
  split
  · next a w1 heq => rw [heq] at h1; simp at h1
  · next res w1 heq =>
    rw [heq] at h1 hk ⊢
    simp at h1
    subst h1
    simp only [hf, if_true]
    split
    · next e w2 heq2 => rw [heq2] at hk; simp at hk
    · next x w2 heq2 => rw [heq2]

theorem withSessionHandling_retry_error {α : Type} (env : Env) (next : Async α) (w : World)
    (f e : Failure) (hkey : truthy w.config.sessionKey = true)
    (h1 : (next w).1 = .error f) (hf : f.isUnauthorized = true)
    (he : (createSession env (next w).2).1 = .error e) :
    withSessionHandling env next w = (.error e, (createSession env (next w).2).2) := by
  rw [withSessionHandling_key env next w hkey]
  split
  · next a w1 heq => rw [heq] at h1; simp at h1
  · next res w1 heq =>
    rw [heq] at h1 he ⊢
    simp at h1
    subst h1
    simp only [hf, if_true]
    split
    · next e1 w2 heq2 => rw [heq2] at he ⊢; simp at he; rw [he]
    · next x w2 heq2 => rw [heq2] at he; simp at he

/-! ## Session manager: the claims -/

/-- C1: for a client whose session key is set, when the first attempt of a GET operation
fails the 401 test and the session creation that follows succeeds with key `k`, the wrapper
makes exactly three fetch calls in this order: the operation, one session creation, one retry
of the operation under the new key.  Its outcome (result and final state) is that of the
second invocation, whatever it is; the callback saw `null` and then `k`. -/
theorem withSessionHandling_unauthorized_retries_once (env : Env) (path : String) (w : World)
    (f : Failure) (k : JsVal)
    (hkey : truthy w.config.sessionKey = true)
    (h1 : (grab env path w).1 = .error f) (hf : f.isUnauthorized = true)
    (hk : (createSession env (grab env path w).2).1 = .ok k) :
    withSessionHandling env (grab env path) w
        = grab env path (createSession env (grab env path w).2).2
      ∧ fetches (withSessionHandling env (grab env path) w).2.trace
        = fetches w.trace ++ [getRequest env path w.config, sessionRequest env w.config,
            getRequest env path { w.config with sessionKey := k }]
      ∧ (withSessionHandling env (grab env path) w).2.config = { w.config with sessionKey := k }
      ∧ keyChanges (withSessionHandling env (grab env path) w).2.trace
        = keyChanges w.trace ++ [JsVal.null, k] := by
  have heq := withSessionHandling_retry_ok env (grab env path) w f k hkey h1 hf hk
  have hc1 := grab_config env path w
  have hkey1 : truthy (grab env path w).2.config.sessionKey = true := by rw [hc1]; exact hkey
  have hc2 := createSession_ok_sessionKey env (grab env path w).2 k hk
  rw [hc1] at hc2
  refine ⟨heq, ?_, ?_, ?_⟩
  · rw [heq, grab_fetches, createSession_fetches, grab_fetches, hc1, hc2]
    simp
  · rw [heq, grab_config, hc2]
  · rw [heq, grab_keyChanges, createSession_keyChanges_ok env _ k hk, grab_keyChanges]
    simp [hkey1]

/-- C2: for a client without session key, the wrapper first makes one session-creation
request; the operation request follows it exactly when the creation succeeded, and then the
operation is invoked once, in a state whose session key is the key the creation returned. -/
theorem withSessionHandling_creates_session_first (env : Env) (op : Operation) (w : World)
    (hno : truthy w.config.sessionKey = false) :
    fetches (withSessionHandling env (op.run env) w).2.trace
        = fetches w.trace ++ sessionRequest env w.config ::
            (match (createSession env w).1 with
             | .ok k => [op.request env { w.config with sessionKey := k }]
             | .error _ => [])
      ∧ ∀ k, (createSession env w).1 = .ok k →
          withSessionHandling env (op.run env) w = op.run env (createSession env w).2
          ∧ (createSession env w).2.config.sessionKey = k
          ∧ (withSessionHandling env (op.run env) w).2.config.sessionKey = k := by
  constructor
  · cases hr : (createSession env w).1 with
    | error e =>
      rw [withSessionHandling_no_key_error env (op.run env) w e hno hr]
      simp [createSession_fetches]
    | ok k =>
      rw [withSessionHandling_no_key_ok env (op.run env) w k hno hr, run_fetches,
        createSession_fetches, createSession_ok_sessionKey env w k hr]
      simp
  · intro k hk
    have heq := withSessionHandling_no_key_ok env (op.run env) w k hno hk
    refine ⟨heq, ?_, ?_⟩
    · rw [createSession_ok_sessionKey env w k hk]
    · rw [heq, run_config, createSession_ok_sessionKey env w k hk]

/-- C3: for a client whose session key is set, when the operation fails with a failure that
does not pass the 401 test, the wrapper does exactly what one invocation of the operation
does: it fails with that same failure, makes the single fetch call of the operation and no
session-creation request, and leaves the config (session key included) and the callback
untouched. -/
theorem withSessionHandling_other_failure_unchanged (env : Env) (op : Operation) (w : World)
    (f : Failure) (hkey : truthy w.config.sessionKey = true)
    (h1 : (op.run env w).1 = .error f) (hf : f.isUnauthorized = false) :
    withSessionHandling env (op.run env) w = op.run env w
      ∧ (withSessionHandling env (op.run env) w).1 = .error f
      ∧ fetches (withSessionHandling env (op.run env) w).2.trace
        = fetches w.trace ++ [op.request env w.config]
      ∧ (withSessionHandling env (op.run env) w).2.config = w.config
      ∧ keyChanges (withSessionHandling env (op.run env) w).2.trace = keyChanges w.trace := by
  have heq := withSessionHandling_pass env (op.run env) w f hkey h1 hf
  refine ⟨heq, ?_, ?_, ?_, ?_⟩
  · rw [heq, h1]
  · rw [heq, run_fetches]
  · rw [heq, run_config]
  · rw [heq, run_keyChanges]

/-- Witness of C1: a GET answered 401, then a session, then the data. -/
theorem withSessionHandling_unauthorized_retries_once_witness :
    truthy sampleWorld.config.sessionKey = true
      ∧ (grab sampleEnv "/profile" sampleWorld).1 = .error (.response sampleUnauthorized)
      ∧ (Failure.response sampleUnauthorized).isUnauthorized = true
      ∧ (createSession sampleEnv (grab sampleEnv "/profile" sampleWorld).2).1
          = .ok (.str "fresh")
      ∧ (withSessionHandling sampleEnv (grab sampleEnv "/profile") sampleWorld).1
          = .ok (.obj [("name", .str "demo")])
      ∧ fetches (withSessionHandling sampleEnv (grab sampleEnv "/profile") sampleWorld).2.trace
          = [getRequest sampleEnv "/profile" (sampleConfig (.str "old")),
             getRequest sampleEnv "/session" (sampleConfig .null),
             getRequest sampleEnv "/profile" (sampleConfig (.str "fresh"))] :=
  ⟨rfl, rfl, rfl, rfl, rfl,
    (withSessionHandling_unauthorized_retries_once sampleEnv "/profile" sampleWorld
      (.response sampleUnauthorized) (.str "fresh") rfl rfl rfl rfl).2.1⟩

/-- Witness of C2 on a client without session key. -/
theorem withSessionHandling_creates_session_first_witness :
    truthy sampleFreshWorld.config.sessionKey = false
      ∧ fetches (withSessionHandling sampleEnv ((Operation.get "/profile").run sampleEnv)
          sampleFreshWorld).2.trace
        = [getRequest sampleEnv "/warmup" (sampleConfig .undefined),
           getRequest sampleEnv "/session" (sampleConfig .undefined),
           getRequest sampleEnv "/profile" (sampleConfig (.str "fresh"))] :=
  ⟨rfl, (withSessionHandling_creates_session_first sampleEnv (.get "/profile") sampleFreshWorld
    rfl).1⟩

/-- Witness of C3 on a GET answered with status 500. -/
theorem withSessionHandling_other_failure_unchanged_witness :
    truthy sampleBusyWorld.config.sessionKey = true
      ∧ ((Operation.get "/profile").run sampleEnv sampleBusyWorld).1
          = .error (.response sampleServerError)
      ∧ (Failure.response sampleServerError).isUnauthorized = false
      ∧ (withSessionHandling sampleEnv ((Operation.get "/profile").run sampleEnv)
          sampleBusyWorld).1 = .error (.response sampleServerError) :=
  ⟨rfl, rfl, rfl,
    (withSessionHandling_other_failure_unchanged sampleEnv (.get "/profile") sampleBusyWorld
      (.response sampleServerError) rfl rfl rfl).2.1⟩

/-- C4: for a client whose session key is set, when the response to a POST routed through
the wrapper has a status other than 200 (401 included), the wrapper does exactly what the
single POST does: it fails with the error `post` threw, makes that one fetch call and no
session-creation request, and leaves the config and the callback untouched. -/
theorem withSessionHandling_post_failure_not_retried (env : Env) (path : String) (body : JsVal)
    (w : World) (res : Response) (hkey : truthy w.config.sessionKey = true)
    (hres : env.fetch (fetches w.trace) (postRequest env path w.config body) = .ok res)
    (hs : res.status ≠ 200) :
    withSessionHandling env (post env path body) w = post env path body w
      ∧ (withSessionHandling env (post env path body) w).1
          = .error (.error (postFailureMessage res))
      ∧ fetches (withSessionHandling env (post env path body) w).2.trace
          = fetches w.trace ++ [postRequest env path w.config body]
      ∧ (withSessionHandling env (post env path body) w).2.config = w.config
      ∧ keyChanges (withSessionHandling env (post env path body) w).2.trace
          = keyChanges w.trace := by
  have hp : (post env path body w).1 = .error (.error (postFailureMessage res)) := by
    unfold post
    simp only [hres]
    simp [hs]
  have heq := withSessionHandling_pass env (post env path body) w _ hkey hp rfl
  refine ⟨heq, ?_, ?_, ?_, ?_⟩
  · rw [heq, hp]
  · rw [heq, post_fetches]
  · rw [heq, post_config]
  · rw [heq, post_keyChanges]

/-- Witness of C4 on a POST answered with status 401. -/
theorem withSessionHandling_post_failure_not_retried_witness :
    truthy sampleWorld.config.sessionKey = true
      ∧ sampleEnv.fetch (fetches sampleWorld.trace)
          (postRequest sampleEnv "/event/log" sampleWorld.config (.obj [])) = .ok sampleUnauthorized
      ∧ sampleUnauthorized.status ≠ 200
      ∧ fetches (withSessionHandling sampleEnv (post sampleEnv "/event/log" (.obj []))
          sampleWorld).2.trace
        = [postRequest sampleEnv "/event/log" (sampleConfig (.str "old")) (.obj [])] :=
  ⟨rfl, rfl, by decide,
    (withSessionHandling_post_failure_not_retried sampleEnv "/event/log" (.obj []) sampleWorld
      sampleUnauthorized rfl rfl (by decide)).2.2.1⟩

/-- C6: when the session creation made by the wrapper fails with `e`, the wrapper fails with
`e` and stops there.  Started without session key, its only fetch call is the creation (the
operation is never invoked); started with a key, after the operation failed the 401 test, its
fetch calls are the first attempt and the creation (no retry, no second creation). -/
theorem withSessionHandling_creation_failure_fatal (env : Env) (op : Operation) (w : World)
    (e : Failure) :
    (truthy w.config.sessionKey = false → (createSession env w).1 = .error e →
        withSessionHandling env (op.run env) w = (.error e, (createSession env w).2)
        ∧ fetches (withSessionHandling env (op.run env) w).2.trace
            = fetches w.trace ++ [sessionRequest env w.config])
      ∧ (∀ f : Failure, truthy w.config.sessionKey = true → (op.run env w).1 = .error f →
          f.isUnauthorized = true → (createSession env (op.run env w).2).1 = .error e →
        withSessionHandling env (op.run env) w
            = (.error e, (createSession env (op.run env w).2).2)
        ∧ fetches (withSessionHandling env (op.run env) w).2.trace
            = fetches w.trace ++ [op.request env w.config, sessionRequest env w.config]) := by
  constructor
  · intro hno he
    have heq := withSessionHandling_no_key_error env (op.run env) w e hno he
    refine ⟨heq, ?_⟩
    rw [heq]
    exact createSession_fetches env w
  · intro f hkey h1 hf he
    have heq := withSessionHandling_retry_error env (op.run env) w f e hkey h1 hf he
    refine ⟨heq, ?_⟩
    rw [heq]
    simp only []
    rw [createSession_fetches, run_fetches, run_config]
    simp

/-- Witness of C6: a remote end that answers 401 to everything, for a client without and
with a session key. -/
theorem withSessionHandling_creation_failure_fatal_witness :
    (truthy sampleNewWorld.config.sessionKey = false
      ∧ (createSession sampleDownEnv sampleNewWorld).1 = .error (.response sampleUnauthorized)
      ∧ fetches (withSessionHandling sampleDownEnv ((Operation.get "/profile").run sampleDownEnv)
          sampleNewWorld).2.trace
        = [getRequest sampleDownEnv "/session" (sampleConfig .undefined)])
    ∧ (truthy sampleWorld.config.sessionKey = true
      ∧ ((Operation.get "/profile").run sampleDownEnv sampleWorld).1
          = .error (.response sampleUnauthorized)
      ∧ (Failure.response sampleUnauthorized).isUnauthorized = true
      ∧ (createSession sampleDownEnv ((Operation.get "/profile").run sampleDownEnv
          sampleWorld).2).1 = .error (.response sampleUnauthorized)
      ∧ fetches (withSessionHandling sampleDownEnv ((Operation.get "/profile").run sampleDownEnv)
          sampleWorld).2.trace
        = [getRequest sampleDownEnv "/profile" (sampleConfig (.str "old")),
           getRequest sampleDownEnv "/session" (sampleConfig .null)]) :=
  ⟨⟨rfl, rfl,
      ((withSessionHandling_creation_failure_fatal sampleDownEnv (.get "/profile") sampleNewWorld
        (.response sampleUnauthorized)).1 rfl rfl).2⟩,
    ⟨rfl, rfl, rfl, rfl,
      ((withSessionHandling_creation_failure_fatal sampleDownEnv (.get "/profile") sampleWorld
        (.response sampleUnauthorized)).2 (.response sampleUnauthorized) rfl rfl rfl rfl).2⟩⟩

/-! ## Client factory: the claims -/

theorem truthy_jsAnd (a b : JsVal) : truthy (jsAnd a b) = (truthy a && truthy b) := by
  unfold jsAnd
  cases h : truthy a <;> simp [h]

theorem truthy_jsOr (a b : JsVal) : truthy (jsOr a b) = (truthy a || truthy b) := by
  unfold jsOr
  cases h : truthy a <;> simp [h]

theorem truthy_jsNot (a : JsVal) : truthy (jsNot a) = !truthy a := rfl

theorem truthy_checkUsability (c : InputConfig) :
    truthy (checkUsability c)
      = (truthy c.appKey && (!truthy c.sessionKey || truthy c.deviceId)) := by
  unfold checkUsability
  simp only [truthy_jsOr, truthy_jsAnd, truthy_jsNot]
  cases truthy c.appKey <;> cases truthy c.deviceId <;> cases truthy c.sessionKey <;> rfl

/-- C5: constructing a client succeeds exactly when the configuration has an application key
and does not have a session key without a device identifier, and it throws the configuration
error exactly in the remaining cases. -/
theorem appgrid_succeeds_iff_usable (uuid : String) (c : InputConfig) :
    ((∃ w, appgrid uuid c = .ok w) ↔ Usable c)
      ∧ (appgrid uuid c = .error (.error usabilityMessage) ↔ ¬ Usable c) := by
  unfold Usable appgrid
  rw [truthy_checkUsability]
  cases ha : truthy c.appKey <;> cases hd : truthy c.deviceId <;>
    cases hs : truthy c.sessionKey <;> simp

/-! ## Raw assets and session creation: the claims -/

theorem splitOnChar_cons_ne (c x : Char) (xs : List Char) (h : x ≠ c) :
    ∃ p ps, splitOnChar c (x :: xs) = (x :: p) :: ps := by
  cases hs : splitOnChar c xs with
  | nil => exact ⟨[], [], by simp [splitOnChar, h, hs]⟩
  | cons p ps => exact ⟨p, ps, by simp [splitOnChar, h, hs]⟩

theorem splitFirst_asset (id : String) :
    ∃ t, (splitFirst '?' ("/asset/" ++ id)).data = '/' :: 'a' :: t := by
  have hd : ("/asset/" ++ id).data = '/' :: 'a' :: ('s' :: 's' :: 'e' :: 't' :: '/' :: id.data) := by
    rw [String.data_append]
    rfl
  unfold splitFirst
  rw [hd]
  obtain ⟨p, ps, h2⟩ := splitOnChar_cons_ne '?' 'a' ('s' :: 's' :: 'e' :: 't' :: '/' :: id.data)
    (by decide)
  have h1 : splitOnChar '?' ('/' :: 'a' :: ('s' :: 's' :: 'e' :: 't' :: '/' :: id.data))
      = ('/' :: 'a' :: p) :: ps := by
    rw [splitOnChar, if_neg (by decide), h2]
  rw [h1]
  exact ⟨p, rfl⟩

theorem splitFirst_session : (splitFirst '?' "/session").data = "/session".data := by decide

/-- The URL of an asset request is never the URL of a session request. -/
theorem asset_url_ne_session_url (env : Env) (id : String) (c c2 : Config) :
    getRequestUrlWithQueryString env ("/asset/" ++ id) c
      ≠ getRequestUrlWithQueryString env "/session" c2 := by
  intro h
  have hdata := congrArg String.data h
  unfold getRequestUrlWithQueryString at hdata
  simp only [String.data_append, List.append_assoc] at hdata
  have h2 := List.append_cancel_left hdata
  obtain ⟨t, ht⟩ := splitFirst_asset id
  rw [ht, splitFirst_session] at h2
  have h3 : "/session".data = '/' :: 's' :: ['e', 's', 's', 'i', 'o', 'n'] := rfl
  rw [h3] at h2
  simp at h2

/-- C8: whatever the client state and the answer, `getAssetById(id)` makes exactly one fetch
call, a GET built from the path `/asset/<id>`, whose URL is not that of a session creation,
and it leaves the config (session key included) and the callback untouched. -/
theorem getAssetById_never_creates_session (env : Env) (id : String) (w : World) :
    fetches (getAssetById env id w).2.trace
        = fetches w.trace ++ [getRequest env ("/asset/" ++ id) w.config]
      ∧ (getRequest env ("/asset/" ++ id) w.config).method = Method.GET
      ∧ (∀ c, (getRequest env ("/asset/" ++ id) w.config).url ≠ (sessionRequest env c).url)
      ∧ (getAssetById env id w).2.config = w.config
      ∧ keyChanges (getAssetById env id w).2.trace = keyChanges w.trace := by
  refine ⟨grabRaw_fetches env _ w, rfl, ?_, grabRaw_config env _ w, grabRaw_keyChanges env _ w⟩
  intro c
  exact asset_url_ne_session_url env id w.config (clearedConfig c)

theorem getFetch_extends (env : Env) (path : String) (w : World) :
    ∃ rest, (getFetch env path w).2.trace = w.trace ++ rest := by
  unfold getFetch
  simp only []
  split
  · exact ⟨_, by simp only [World.log, List.append_assoc]; rfl⟩
  · split
    · exact ⟨_, by simp only [World.log, List.append_assoc]; rfl⟩
    · exact ⟨_, by simp only [World.log, List.append_assoc]; rfl⟩

theorem grab_extends (env : Env) (path : String) (w : World) :
    ∃ rest, (grab env path w).2.trace = w.trace ++ rest := by
  obtain ⟨r, hr⟩ := getFetch_extends env path (w.log "Requesting" [.str path])
  unfold grab
  simp only []
  split
  · next e w2 heq =>
    rw [heq] at hr
    exact ⟨_, by rw [hr]; simp only [World.log, List.append_assoc]; rfl⟩
  · next res w2 heq =>
    rw [heq] at hr
    simp only [] at hr
    split
    · exact ⟨_, by rw [hr]; simp only [World.log, List.append_assoc]; rfl⟩
    · exact ⟨_, by simp only [World.log, hr, List.append_assoc]; rfl⟩

theorem createSession_extends (env : Env) (w : World) :
    ∃ rest, (createSession env w).2.trace = (clearedWorld w).trace ++ rest := by
  obtain ⟨r, hr⟩ := grab_extends env "/session" (clearedWorld w)
  rw [createSession_unfold]
  split
  · next e w2 heq => rw [heq] at hr; exact ⟨r, hr⟩
  · next json w2 heq =>
    rw [heq] at hr
    simp only [] at hr
    split
    · exact ⟨r, hr⟩
    · exact ⟨_, by simp only [World.setSessionKey, hr, List.append_assoc]; rfl⟩

theorem clearedConfig_sessionKey (c : Config) : truthy (clearedConfig c).sessionKey = false := by
  unfold clearedConfig
  split
  · rfl
  · next h => simpa using h

theorem sessionRequest_headers (env : Env) (c : Config) :
    (sessionRequest env c).headers
      = if truthy c.clientIp then
          [("accept", JsVal.str MIME_TYPE_JSON), ("X-FORWARDED-FOR", c.clientIp)]
        else [("accept", JsVal.str MIME_TYPE_JSON)] := by
  have hk := clearedConfig_sessionKey c
  have hip : (clearedConfig c).clientIp = c.clientIp := by
    unfold clearedConfig
    split <;> rfl
  unfold sessionRequest getRequest getExtraHeaders getSessionHeader getForwardedForHeader
  simp only [hk, hip]
  cases truthy c.clientIp <;> simp [objAssign, setKey, defaultHeaders]

/-- C9: the one fetch call `createSession` makes carries no `X-SESSION` header, whatever key
the client held: the call is built in the state reached after a truthy key was set to `null`,
a state whose session key is falsy, and it comes after that write in the trace. -/
theorem createSession_request_without_session_header (env : Env) (w : World) :
    fetches (createSession env w).2.trace = fetches w.trace ++ [sessionRequest env w.config]
      ∧ (∀ v, ("X-SESSION", v) ∉ (sessionRequest env w.config).headers)
      ∧ sessionRequest env w.config = getRequest env "/session" (clearedWorld w).config
      ∧ truthy (clearedWorld w).config.sessionKey = false
      ∧ ∃ rest, (createSession env w).2.trace = (clearedWorld w).trace ++ rest
          ∧ fetches rest = [sessionRequest env w.config] := by
  refine ⟨createSession_fetches env w, ?_, ?_, ?_, ?_⟩
  · intro v
    rw [sessionRequest_headers]
    split <;> simp
  · rw [clearedWorld_config]
    rfl
  · rw [clearedWorld_config]
    exact clearedConfig_sessionKey w.config
  · obtain ⟨rest, hrest⟩ := createSession_extends env w
    refine ⟨rest, hrest, ?_⟩
    have h := createSession_fetches env w
    rw [hrest, fetches_append, clearedWorld_fetches] at h
    exact List.append_cancel_left h

/-- C10, as stated, fails: for a client that holds a session key, one successful session
creation calls `onSessionKeyChanged` twice, first with `null` and then with the new key. -/
theorem createSession_callback_fires_twice :
    (createSession sampleEnv sampleStaleWorld).1 = .ok (.str "fresh")
      ∧ keyChanges sampleStaleWorld.trace = []
      ∧ keyChanges (createSession sampleEnv sampleStaleWorld).2.trace
          = [JsVal.null, JsVal.str "fresh"]
      ∧ (keyChanges (createSession sampleEnv sampleStaleWorld).2.trace).length ≠ 1 :=
  ⟨rfl, rfl, rfl, by decide⟩

/-- C10, amended: one successful session creation calls `onSessionKeyChanged` exactly once,
with the new key, when the client held no session key; when it held one, the callback is
called exactly twice, first with `null` (the clearing write) and then with the new key. -/
theorem createSession_callback_calls (env : Env) (w : World) (k : JsVal)
    (hk : (createSession env w).1 = .ok k) :
    keyChanges (createSession env w).2.trace
      = keyChanges w.trace ++ (if truthy w.config.sessionKey then [JsVal.null, k] else [k]) :=
  createSession_keyChanges_ok env w k hk

/-- Witness of the amended C10 on a client without session key. -/
theorem createSession_callback_calls_witness :
    (createSession sampleEnv sampleFreshWorld).1 = .ok (.str "fresh")
      ∧ keyChanges (createSession sampleEnv sampleFreshWorld).2.trace = [JsVal.str "fresh"] :=
  ⟨rfl, createSession_callback_calls sampleEnv sampleFreshWorld (.str "fresh") rfl⟩

/-! ## Application logs: the claims -/

theorem withSessionHandling_key_fetches_head (env : Env) (op : Operation) (w : World)
    (hkey : truthy w.config.sessionKey = true) :
    ∃ rest, fetches (withSessionHandling env (op.run env) w).2.trace
      = fetches w.trace ++ op.request env w.config :: rest := by
  have h := run_fetches env op w
  rw [withSessionHandling_key env (op.run env) w hkey]
  split
  · next a w1 heq => rw [heq] at h; exact ⟨[], h⟩
  · next res w1 heq =>
    rw [heq] at h
    simp only [] at h
    split
    · have hc := createSession_fetches env w1
      split
      · next e w2 heq2 =>
        rw [heq2] at hc
        exact ⟨[sessionRequest env w1.config], by simp only [hc, h]; simp⟩
      · next x w2 heq2 =>
        rw [heq2] at hc
        simp only [] at hc
        exact ⟨[sessionRequest env w1.config, op.request env w2.config],
          by rw [run_fetches, hc, h]; simp⟩
    · exact ⟨[], h⟩

theorem withSessionHandling_no_key_ok_fetches (env : Env) (op : Operation) (w : World)
    (k : JsVal) (hno : truthy w.config.sessionKey = false)
    (hk : (createSession env w).1 = .ok k) :
    fetches (withSessionHandling env (op.run env) w).2.trace
      = fetches w.trace
        ++ [sessionRequest env w.config, op.request env { w.config with sessionKey := k }] := by
  rw [withSessionHandling_no_key_ok env (op.run env) w k hno hk, run_fetches,
    createSession_fetches, createSession_ok_sessionKey env w k hk]
  simp

/-- C7: `sendLog` with a level outside `debug`, `info`, `warn`, `error` rejects with the
string `Unsupported log level` in an unchanged state (no fetch call, no callback, same session
key).  With one of the four levels it passes validation: it is the session-wrapped POST to
`/application/log/<level>`, whose request is the first fetch call when the client holds a
session key and follows the session creation when the client had to create one. -/
theorem sendLog_validates_level (env : Env) (level : String) (details : LogDetails)
    (metadata : List JsVal) (w : World) :
    (level ∈ LOG_LEVELS ↔ level = "debug" ∨ level = "info" ∨ level = "warn" ∨ level = "error")
      ∧ (level ∉ LOG_LEVELS →
          sendLog env level details metadata w
              = (.error (.value (.str "Unsupported log level")), w)
          ∧ fetches (sendLog env level details metadata w).2.trace = fetches w.trace
          ∧ keyChanges (sendLog env level details metadata w).2.trace = keyChanges w.trace
          ∧ (sendLog env level details metadata w).2.config = w.config)
      ∧ (level ∈ LOG_LEVELS →
          sendLog env level details metadata w
              = withSessionHandling env
                  (post env ("/application/log/" ++ level)
                    (getLogEvent env details (.arr metadata))) w
          ∧ (truthy w.config.sessionKey = true →
              ∃ rest, fetches (sendLog env level details metadata w).2.trace
                = fetches w.trace
                  ++ postRequest env ("/application/log/" ++ level) w.config
                      (getLogEvent env details (.arr metadata)) :: rest)
          ∧ (∀ k, truthy w.config.sessionKey = false → (createSession env w).1 = .ok k →
              fetches (sendLog env level details metadata w).2.trace
                = fetches w.trace
                  ++ [sessionRequest env w.config,
                      postRequest env ("/application/log/" ++ level)
                        { w.config with sessionKey := k }
                        (getLogEvent env details (.arr metadata))])) := by
  refine ⟨by simp [LOG_LEVELS, DEBUG, INFO, WARN, ERROR], ?_, ?_⟩
  · intro hbad
    have heq : sendLog env level details metadata w
        = (.error (.value (.str "Unsupported log level")), w) := by
      unfold sendLog
      simp [hbad]
    rw [heq]
    exact ⟨rfl, rfl, rfl, rfl⟩
  · intro hgood
    have heq : sendLog env level details metadata w
        = withSessionHandling env
            ((Operation.post ("/application/log/" ++ level)
              (getLogEvent env details (.arr metadata))).run env) w := by
      unfold sendLog postLog
      simp [hgood, Operation.run]
    refine ⟨heq, ?_, ?_⟩
    · intro hkey
      rw [heq]
      exact withSessionHandling_key_fetches_head env _ w hkey
    · intro k hno hk
      rw [heq]
      exact withSessionHandling_no_key_ok_fetches env _ w k hno hk

/-- Witness of C7: the level `trace` is refused without any request, the level `info` is
posted as the first request of a client holding a session key. -/
theorem sendLog_validates_level_witness :
    ("trace" ∉ LOG_LEVELS
      ∧ sendLog sampleEnv "trace" sampleDetails [] sampleWorld
          = (.error (.value (.str "Unsupported log level")), sampleWorld))
    ∧ ("info" ∈ LOG_LEVELS
      ∧ sendLog sampleEnv "info" sampleDetails [] sampleWorld
          = withSessionHandling sampleEnv
              (post sampleEnv ("/application/log/" ++ "info")
                (getLogEvent sampleEnv sampleDetails (.arr []))) sampleWorld) :=
  ⟨⟨by decide,
      ((sendLog_validates_level sampleEnv "trace" sampleDetails [] sampleWorld).2.1
        (by decide)).1⟩,
    ⟨by decide,
      ((sendLog_validates_level sampleEnv "info" sampleDetails [] sampleWorld).2.2
        (by decide)).1⟩⟩

/-! ## Client factory: device identifier -/

theorem appgrid_of_usable (uuid : String) (c : InputConfig) (hu : Usable c) :
    appgrid uuid c
      = .ok { config :=
                { deviceId := if !truthy c.deviceId then JsVal.str uuid else c.deviceId,
                  gid := c.gid, appKey := c.appKey, clientIp := .undefined,
                  sessionKey := c.sessionKey },
              trace := if !truthy c.deviceId then [Event.deviceIdGenerated uuid] else [] } := by
  have ht : truthy (checkUsability c) = true := by
    rw [truthy_checkUsability]
    obtain ⟨ha, hn⟩ := hu
    cases hs : truthy c.sessionKey <;> cases hd : truthy c.deviceId <;> simp_all
  unfold appgrid
  simp [ht]

/-- C11: for a usable configuration the factory returns a client whose appKey, gid and
sessionKey are those given, without any `onSessionKeyChanged` call and without any request.
When the device identifier is absent (falsy), the client's deviceId is the generated one and
`onDeviceIdGenerated` is called exactly once, with it; when it is present, the client's
deviceId is the given value and `onDeviceIdGenerated` is not called. -/
theorem appgrid_device_identifier (uuid : String) (c : InputConfig) (hu : Usable c) :
    ∃ w, appgrid uuid c = .ok w
      ∧ w.config.appKey = c.appKey ∧ w.config.gid = c.gid
      ∧ w.config.sessionKey = c.sessionKey
      ∧ keyChanges w.trace = [] ∧ fetches w.trace = []
      ∧ (truthy c.deviceId = false →
          w.config.deviceId = .str uuid ∧ deviceIdCalls w.trace = [uuid])
      ∧ (truthy c.deviceId = true →
          w.config.deviceId = c.deviceId ∧ deviceIdCalls w.trace = []) := by
  refine ⟨_, appgrid_of_usable uuid c hu, rfl, rfl, rfl, ?_, ?_, ?_, ?_⟩
  · cases truthy c.deviceId <;> rfl
  · cases truthy c.deviceId <;> rfl
  · intro hd
    simp [hd, deviceIdCalls]
  · intro hd
    simp [hd, deviceIdCalls]

/-- Witness of C11 on a configuration with an application key only. -/
theorem appgrid_device_identifier_witness :
    Usable sampleAppKeyOnly
      ∧ ∃ w, appgrid "generated" sampleAppKeyOnly = .ok w
        ∧ w.config.appKey = sampleAppKeyOnly.appKey ∧ w.config.gid = sampleAppKeyOnly.gid
        ∧ w.config.sessionKey = sampleAppKeyOnly.sessionKey
        ∧ keyChanges w.trace = [] ∧ fetches w.trace = []
        ∧ (truthy sampleAppKeyOnly.deviceId = false →
            w.config.deviceId = .str "generated" ∧ deviceIdCalls w.trace = ["generated"])
        ∧ (truthy sampleAppKeyOnly.deviceId = true →
            w.config.deviceId = sampleAppKeyOnly.deviceId ∧ deviceIdCalls w.trace = []) :=
  ⟨⟨rfl, by decide⟩,
    appgrid_device_identifier "generated" sampleAppKeyOnly ⟨rfl, by decide⟩⟩

/-- C16, as stated, fails: the configuration of the test, an application key without device
identifier and without session key, builds a client with a generated device identifier. -/
theorem appgrid_accepts_appKey_alone :
    appgrid "generated" sampleAppKeyOnly
      = .ok { config :=
                { deviceId := .str "generated", gid := .undefined,
                  appKey := .str "56ea6a370db1bf032c9df5cb", clientIp := .undefined,
                  sessionKey := .undefined },
              trace := [Event.deviceIdGenerated "generated"] } := rfl

/-- C16, amended: for a configuration that has an application key but neither a device
identifier nor a session key, the construction does not throw: it returns a client whose
deviceId is the generated identifier, reported once through `onDeviceIdGenerated`. -/
theorem appgrid_appKey_alone_succeeds (uuid : String) (c : InputConfig)
    (ha : truthy c.appKey = true) (hd : truthy c.deviceId = false)
    (hs : truthy c.sessionKey = false) :
    appgrid uuid c
      = .ok { config :=
                { deviceId := .str uuid, gid := c.gid, appKey := c.appKey,
                  clientIp := .undefined, sessionKey := c.sessionKey },
              trace := [Event.deviceIdGenerated uuid] } := by
  rw [appgrid_of_usable uuid c ⟨ha, by simp [hs]⟩]
  simp [hd]

/-- Witness of the amended C16 on the configuration of the test. -/
theorem appgrid_appKey_alone_succeeds_witness :
    truthy sampleAppKeyOnly.appKey = true ∧ truthy sampleAppKeyOnly.deviceId = false
      ∧ truthy sampleAppKeyOnly.sessionKey = false
      ∧ appgrid "generated" sampleAppKeyOnly
        = .ok { config :=
                  { deviceId := .str "generated", gid := sampleAppKeyOnly.gid,
                    appKey := sampleAppKeyOnly.appKey, clientIp := .undefined,
                    sessionKey := sampleAppKeyOnly.sessionKey },
                trace := [Event.deviceIdGenerated "generated"] } :=
  ⟨rfl, rfl, rfl, appgrid_appKey_alone_succeeds "generated" sampleAppKeyOnly rfl rfl rfl⟩

/-! ## Time of day -/

/-- C17: for every hour below 24 the function returns the label whose range, as listed in
`hourRanges`, contains the hour, and no other listed range contains it: the six ranges cover
each hour of the day exactly once. -/
theorem getCurrentTimeOfDayDimValue_range (h : Nat) (hh : h < 24) :
    (1 ≤ h ∧ h < 5 → getCurrentTimeOfDayDimValue h = "01-05")
      ∧ (5 ≤ h ∧ h < 9 → getCurrentTimeOfDayDimValue h = "05-09")
      ∧ (9 ≤ h ∧ h < 13 → getCurrentTimeOfDayDimValue h = "09-13")
      ∧ (13 ≤ h ∧ h < 17 → getCurrentTimeOfDayDimValue h = "13-17")
      ∧ (17 ≤ h ∧ h < 21 → getCurrentTimeOfDayDimValue h = "17-21")
      ∧ (h = 21 ∨ h = 22 ∨ h = 23 ∨ h = 0 → getCurrentTimeOfDayDimValue h = "21-01")
      ∧ (∀ r ∈ hourRanges, h ∈ r.2 ↔ r.1 = getCurrentTimeOfDayDimValue h) := by
  interval_cases h <;> simp [getCurrentTimeOfDayDimValue, hourRanges]

/-- Witness of C17 at midnight. -/
theorem getCurrentTimeOfDayDimValue_range_witness :
    0 < 24 ∧ getCurrentTimeOfDayDimValue 0 = "21-01" :=
  ⟨by decide,
    (getCurrentTimeOfDayDimValue_range 0 (by decide)).2.2.2.2.2.1 (Or.inr (Or.inr (Or.inr rfl)))⟩

/-! ## Session manager: first call answered 401 -/

/-- C18: for a client without session key, when the session creation succeeds with key `k`
and the operation then fails with `f` (in particular with a failure passing the 401 test),
the wrapper fails with `f`.  Its fetch calls are exactly the one session creation and the one
invocation of the operation, the session key stays `k`, and the callback was called with `k`
only. -/
theorem withSessionHandling_fresh_session_not_retried (env : Env) (op : Operation) (w : World)
    (k : JsVal) (f : Failure) (hno : truthy w.config.sessionKey = false)
    (hk : (createSession env w).1 = .ok k)
    (h1 : (op.run env (createSession env w).2).1 = .error f)
    (_hf : f.isUnauthorized = true) :
    (withSessionHandling env (op.run env) w).1 = .error f
      ∧ fetches (withSessionHandling env (op.run env) w).2.trace
          = fetches w.trace
            ++ [sessionRequest env w.config, op.request env { w.config with sessionKey := k }]
      ∧ (withSessionHandling env (op.run env) w).2.config = { w.config with sessionKey := k }
      ∧ keyChanges (withSessionHandling env (op.run env) w).2.trace
          = keyChanges w.trace ++ [k] := by
  have heq := withSessionHandling_no_key_ok env (op.run env) w k hno hk
  refine ⟨?_, withSessionHandling_no_key_ok_fetches env op w k hno hk, ?_, ?_⟩
  · rw [heq, h1]
  · rw [heq, run_config, createSession_ok_sessionKey env w k hk]
  · rw [heq, run_keyChanges, createSession_keyChanges_ok env w k hk]
    simp [hno]

/-- Witness of C18: the session is created, then the GET is answered 401. -/
theorem withSessionHandling_fresh_session_not_retried_witness :
    truthy sampleNewWorld.config.sessionKey = false
      ∧ (createSession sampleQueryEnv sampleNewWorld).1 = .ok (.str "fresh")
      ∧ ((Operation.get "/profile").run sampleQueryEnv
          (createSession sampleQueryEnv sampleNewWorld).2).1
          = .error (.response sampleUnauthorized)
      ∧ (Failure.response sampleUnauthorized).isUnauthorized = true
      ∧ (withSessionHandling sampleQueryEnv ((Operation.get "/profile").run sampleQueryEnv)
          sampleNewWorld).1 = .error (.response sampleUnauthorized)
      ∧ fetches (withSessionHandling sampleQueryEnv ((Operation.get "/profile").run sampleQueryEnv)
          sampleNewWorld).2.trace
        = [getRequest sampleQueryEnv "/session" (sampleConfig .undefined),
           getRequest sampleQueryEnv "/profile" (sampleConfig (.str "fresh"))] :=
  ⟨rfl, rfl, rfl, rfl,
    (withSessionHandling_fresh_session_not_retried sampleQueryEnv (.get "/profile")
      sampleNewWorld (.str "fresh") (.response sampleUnauthorized) rfl rfl rfl rfl).1,
    (withSessionHandling_fresh_session_not_retried sampleQueryEnv (.get "/profile")
      sampleNewWorld (.str "fresh") (.response sampleUnauthorized) rfl rfl rfl rfl).2.1⟩

/-! ## Request headers -/

/-- C14: the headers of a GET request are `accept`, then `X-FORWARDED-FOR` exactly when the
config has a truthy `clientIp`, then `X-SESSION` exactly when it has a truthy session key;
the headers of a POST request are the same with `Content-Type` after `accept`. -/
theorem request_headers_exact (env : Env) (path : String) (config : Config) (body : JsVal) :
    (getRequest env path config).headers
        = ("accept", JsVal.str "application/json")
          :: ((if truthy config.clientIp then [("X-FORWARDED-FOR", config.clientIp)] else [])
            ++ (if truthy config.sessionKey then [("X-SESSION", config.sessionKey)] else []))
      ∧ (postRequest env path config body).headers
        = ("accept", JsVal.str "application/json")
          :: ("Content-Type", JsVal.str "application/json")
          :: ((if truthy config.clientIp then [("X-FORWARDED-FOR", config.clientIp)] else [])
            ++ (if truthy config.sessionKey then [("X-SESSION", config.sessionKey)] else [])) := by
  unfold getRequest postRequest getExtraHeaders getSessionHeader getForwardedForHeader
  cases truthy config.clientIp <;> cases truthy config.sessionKey <;>
    simp [objAssign, setKey, defaultHeaders, getContentTypeHeader, MIME_TYPE_JSON]

/-! ## Query string -/

theorem lookupKey_setKey_same (k : String) (v : JsVal) (l : List (String × JsVal)) :
    lookupKey k (setKey k v l) = v := by
  induction l with
  | nil => simp [setKey, lookupKey]
  | cons kv rest ih =>
    obtain ⟨k1, v1⟩ := kv
    by_cases h : k1 = k
    · simp [setKey, lookupKey, h]
    · simp [setKey, lookupKey, h, ih]

theorem lookupKey_setKey_ne (k k2 : String) (v : JsVal) (l : List (String × JsVal))
    (hne : k ≠ k2) : lookupKey k (setKey k2 v l) = lookupKey k l := by
  induction l with
  | nil => simp [setKey, lookupKey, Ne.symm hne]
  | cons kv rest ih =>
    obtain ⟨k1, v1⟩ := kv
    by_cases h : k1 = k2
    · subst h
      simp [setKey, lookupKey, Ne.symm hne]
    · by_cases h2 : k1 = k
      · subst h2
        simp [setKey, lookupKey, h]
      · simp [setKey, lookupKey, h, h2, ih]

theorem setKey_of_not_mem (k : String) (v : JsVal) (l : List (String × JsVal))
    (h : k ∉ l.map Prod.fst) : setKey k v l = l ++ [(k, v)] := by
  induction l with
  | nil => rfl
  | cons kv rest ih =>
    obtain ⟨k1, v1⟩ := kv
    simp only [List.map_cons, List.mem_cons, not_or] at h
    simp [setKey, Ne.symm h.1, ih h.2]

theorem objAssign_of_nodup (acc l : List (String × JsVal))
    (h : ((acc ++ l).map Prod.fst).Nodup) : objAssign acc l = acc ++ l := by
  induction l generalizing acc with
  | nil => simp [objAssign]
  | cons kv rest ih =>
    obtain ⟨k, v⟩ := kv
    have hk : k ∉ acc.map Prod.fst := by
      intro hmem
      simp only [List.map_append, List.map_cons] at h
      have := (List.nodup_append.mp h).2.2
      exact this hmem (List.mem_cons_self _ _)
    have hstep : objAssign acc ((k, v) :: rest) = objAssign (setKey k v acc) rest := rfl
    rw [hstep, setKey_of_not_mem k v acc hk]
    have h2 : (((acc ++ [(k, v)]) ++ rest).map Prod.fst).Nodup := by
      simpa [List.append_assoc] using h
    rw [ih (acc ++ [(k, v)]) h2]
    simp

theorem splitOnChar_of_not_mem (c : Char) (l : List Char) (h : c ∉ l) :
    splitOnChar c l = [l] := by
  induction l with
  | nil => rfl
  | cons x xs ih =>
    simp only [List.mem_cons, not_or] at h
    have hx : x ≠ c := fun e => h.1 e.symm
    simp [splitOnChar, hx, ih h.2]

theorem splitOnChar_append_sep (c : Char) (p rest : List Char) (h : c ∉ p) :
    splitOnChar c (p ++ c :: rest) = p :: splitOnChar c rest := by
  induction p with
  | nil => simp [splitOnChar]
  | cons x xs ih =>
    simp only [List.mem_cons, not_or] at h
    have hx : x ≠ c := fun e => h.1 e.symm
    simp [splitOnChar, hx, ih h.2]

theorem query_data (p q : String) : (p ++ "?" ++ q).data = p.data ++ '?' :: q.data := by
  simp [String.data_append]

/-- Splitting `p?q` at the question mark gives `p` and `q`. -/
theorem split_query (p q : String) (hp : '?' ∉ p.data) (hq : '?' ∉ q.data) :
    splitFirst '?' (p ++ "?" ++ q) = p ∧ splitSecond '?' (p ++ "?" ++ q) = some q := by
  unfold splitFirst splitSecond
  rw [query_data, splitOnChar_append_sep '?' p.data q.data hp,
    splitOnChar_of_not_mem '?' q.data hq]
  exact ⟨rfl, rfl⟩

/-- A path without question mark is kept whole and has no query. -/
theorem split_plain (p : String) (hp : '?' ∉ p.data) :
    splitFirst '?' p = p ∧ splitSecond '?' p = none := by
  unfold splitFirst splitSecond
  rw [splitOnChar_of_not_mem '?' p.data hp]
  exact ⟨rfl, rfl⟩

/-- What merging the default keys into a query object does to each key. -/
theorem merged_defaults_lookup (existing : List (String × JsVal)) (a u g : JsVal) :
    let merged := objAssign existing
      (if truthy g then [("appKey", a), ("uuid", u)] ++ [("gid", g)]
        else [("appKey", a), ("uuid", u)])
    lookupKey "appKey" merged = a
      ∧ lookupKey "uuid" merged = u
      ∧ (truthy g = true → lookupKey "gid" merged = g)
      ∧ (∀ k, k ≠ "appKey" → k ≠ "uuid" → (k = "gid" → truthy g = false) →
          lookupKey k merged = lookupKey k existing) := by
  have hau : ("appKey" : String) ≠ "uuid" := by decide
  have hag : ("appKey" : String) ≠ "gid" := by decide
  have hug : ("uuid" : String) ≠ "gid" := by decide
  cases hg : truthy g
  · simp only [objAssign, List.foldl, Bool.false_eq_true, if_false]
    refine ⟨?_, ?_, ?_, ?_⟩
    · rw [lookupKey_setKey_ne _ _ _ _ hau, lookupKey_setKey_same]
    · rw [lookupKey_setKey_same]
    · intro h
      cases h
    · intro k h1 h2 _
      rw [lookupKey_setKey_ne _ _ _ _ h2, lookupKey_setKey_ne _ _ _ _ h1]
  · simp only [objAssign, List.foldl, if_true, List.cons_append, List.nil_append]
    refine ⟨?_, ?_, ?_, ?_⟩
    · rw [lookupKey_setKey_ne _ _ _ _ hag, lookupKey_setKey_ne _ _ _ _ hau,
        lookupKey_setKey_same]
    · rw [lookupKey_setKey_ne _ _ _ _ hug, lookupKey_setKey_same]
    · intro _
      rw [lookupKey_setKey_same]
    · intro k h1 h2 h3
      have hkg : k ≠ "gid" := fun h => by simpa using h3 h
      rw [lookupKey_setKey_ne _ _ _ _ hkg, lookupKey_setKey_ne _ _ _ _ h2,
        lookupKey_setKey_ne _ _ _ _ h1]

/-- C12, as stated, fails on `src/apiHelper.js`: for an options object that has `appKey` and
`uuid` (the shape the tests pass) the query gets no `appKey`, because that file reads
`options.appId`. -/
theorem apiHelper_reads_appId :
    lookupKey "appKey" sampleHelperOptions = .str "app"
      ∧ lookupKey "appKey" (ApiHelper.getQueryObject sampleHelperOptions
          (sampleLibraryEnv.qsParse (splitSecond '?' "/user/bob?json=true"))) = .undefined
      ∧ ApiHelper.getRequestUrlWithQueryString sampleLibraryEnv "/user/bob?json=true"
          sampleHelperOptions = "/user/bob?json=true&uuid=dev" :=
  ⟨rfl, rfl, by decide⟩

/-- C12, amended: for a path `p?q` the URL is the path `p` (after the host, in the bundle),
`?` and the rendering of the query object built from what `qs.parse` reads in `q` (from
nothing when the path has no query).  In that object `appKey` is the application key of the
config (`config.appKey` in the bundle, `options.appId` in `src/apiHelper.js`) and `uuid` its
device identifier (`config.deviceId` in the bundle, `options.uuid` in `src/apiHelper.js`),
also when the caller's query had them; `gid` is the config's gid whenever that is set; every
other key has the value it has in the caller's query. -/
theorem getRequestUrlWithQueryString_merges_query (env : Env) (config : Config)
    (options : List (String × JsVal)) :
    (∀ p q : String, '?' ∉ p.data → '?' ∉ q.data →
        getRequestUrlWithQueryString env (p ++ "?" ++ q) config
            = HOST ++ p ++ "?" ++ env.qsStringify (getQueryObject config (env.qsParse (some q)))
        ∧ ApiHelper.getRequestUrlWithQueryString env (p ++ "?" ++ q) options
            = p ++ "?"
              ++ env.qsStringify (ApiHelper.getQueryObject options (env.qsParse (some q))))
      ∧ (∀ p : String, '?' ∉ p.data →
        getRequestUrlWithQueryString env p config
            = HOST ++ p ++ "?" ++ env.qsStringify (getQueryObject config (env.qsParse none))
        ∧ ApiHelper.getRequestUrlWithQueryString env p options
            = p ++ "?" ++ env.qsStringify (ApiHelper.getQueryObject options (env.qsParse none)))
      ∧ (∀ existingQs : List (String × JsVal),
          lookupKey "appKey" (getQueryObject config existingQs) = config.appKey
          ∧ lookupKey "uuid" (getQueryObject config existingQs) = config.deviceId
          ∧ (truthy config.gid = true →
              lookupKey "gid" (getQueryObject config existingQs) = config.gid)
          ∧ (∀ k, k ≠ "appKey" → k ≠ "uuid" → (k = "gid" → truthy config.gid = false) →
              lookupKey k (getQueryObject config existingQs)
                = lookupKey k (objAssign [] existingQs)))
      ∧ (∀ existingQs : List (String × JsVal),
          lookupKey "appKey" (ApiHelper.getQueryObject options existingQs)
              = lookupKey "appId" options
          ∧ lookupKey "uuid" (ApiHelper.getQueryObject options existingQs)
              = lookupKey "uuid" options
          ∧ (truthy (lookupKey "gid" options) = true →
              lookupKey "gid" (ApiHelper.getQueryObject options existingQs)
                = lookupKey "gid" options)
          ∧ (∀ k, k ≠ "appKey" → k ≠ "uuid" →
              (k = "gid" → truthy (lookupKey "gid" options) = false) →
              lookupKey k (ApiHelper.getQueryObject options existingQs)
                = lookupKey k (objAssign [] existingQs)))
      ∧ (∀ existingQs : List (String × JsVal),
          (existingQs.map Prod.fst).Nodup → objAssign [] existingQs = existingQs) := by
  refine ⟨?_, ?_, ?_, ?_, ?_⟩
  · intro p q hp hq
    obtain ⟨h1, h2⟩ := split_query p q hp hq
    unfold getRequestUrlWithQueryString ApiHelper.getRequestUrlWithQueryString getQueryString
      ApiHelper.getQueryString
    rw [h1, h2]
    exact ⟨rfl, rfl⟩
  · intro p hp
    obtain ⟨h1, h2⟩ := split_plain p hp
    unfold getRequestUrlWithQueryString ApiHelper.getRequestUrlWithQueryString getQueryString
      ApiHelper.getQueryString
    rw [h1, h2]
    exact ⟨rfl, rfl⟩
  · intro existingQs
    exact merged_defaults_lookup (objAssign [] existingQs) config.appKey config.deviceId
      config.gid
  · intro existingQs
    exact merged_defaults_lookup (objAssign [] existingQs) (lookupKey "appId" options)
      (lookupKey "uuid" options) (lookupKey "gid" options)
  · intro existingQs hnd
    simpa using objAssign_of_nodup [] existingQs (by simpa using hnd)

/-- Witness of the amended C12: a path whose query has a `json` flag, rendered by the
library. -/
theorem getRequestUrlWithQueryString_merges_query_witness :
    '?' ∉ ("/user/bob/k" : String).data ∧ '?' ∉ ("json=true" : String).data
      ∧ sampleLibraryEnv.qsParse (some "json=true") = [("json", .str "true")]
      ∧ getRequestUrlWithQueryString sampleLibraryEnv ("/user/bob/k" ++ "?" ++ "json=true")
          (sampleConfig .undefined)
        = HOST ++ "/user/bob/k" ++ "?"
          ++ sampleLibraryEnv.qsStringify
              (getQueryObject (sampleConfig .undefined)
                (sampleLibraryEnv.qsParse (some "json=true")))
      ∧ getRequestUrlWithQueryString sampleLibraryEnv ("/user/bob/k" ++ "?" ++ "json=true")
          (sampleConfig .undefined)
        = "https://appgrid-api.cloud.accedo.tv/user/bob/k?json=true&appKey=app&uuid=dev"
      ∧ getRequestUrlWithQueryString sampleLibraryEnv "/user/bob?appKey=spoof&json=true"
          (sampleConfig .undefined)
        = "https://appgrid-api.cloud.accedo.tv/user/bob?appKey=app&json=true&uuid=dev" :=
  ⟨by decide, by decide, rfl,
    ((getRequestUrlWithQueryString_merges_query sampleLibraryEnv (sampleConfig .undefined)
      sampleHelperOptions).1 "/user/bob/k" "json=true" (by decide) (by decide)).1,
    by decide, by decide⟩

/-! ## Entries facade: array parameters -/

/-- The query object of `getPathWithQs`, key by key. -/
theorem getPathQueryObject_eq (params : EntryParams) :
    getPathQueryObject params
      = (match params.id with
          | some id => if id.length ≠ 0 then [("id", JsVal.str (joinStr id))] else []
          | none => [])
        ++ (match params.aliases with
          | some aliases =>
            if aliases.length ≠ 0 then [("alias", JsVal.str (joinStr aliases))] else []
          | none => [])
        ++ (if truthy params.preview then [("preview", JsVal.bool true)] else [])
        ++ (match params.atParam with
          | .text s => [("at", JsVal.str s)]
          | .date iso => [("at", JsVal.str iso)]
          | .other => [])
        ++ [("typeId", params.typeId), ("offset", params.offset), ("size", params.size)] := by
  obtain ⟨id, typeId, aliases, preview, atParam, offset, size⟩ := params
  unfold getPathQueryObject getPathQsParams
  rcases id with _ | id <;> rcases aliases with _ | aliases <;> cases truthy preview <;>
    cases atParam <;> simp only [] <;>
    (try by_cases hi : id.length = 0) <;> (try by_cases ha : aliases.length = 0) <;>
    simp [objAssign, setKey, *]

theorem intercalate_go_append (x y sep : String) (l : List String) :
    String.intercalate.go (x ++ y) sep l = x ++ String.intercalate.go y sep l := by
  induction l generalizing y with
  | nil => rfl
  | cons a rest ih =>
    simp only [String.intercalate.go]
    rw [String.append_assoc, String.append_assoc, ← String.append_assoc y sep a]
    exact ih (y ++ sep ++ a)

/-- Joining an array of strings is interleaving them with commas. -/
theorem joinStr_strings (ss : List String) :
    joinStr (ss.map JsVal.str) = ",".intercalate ss := by
  induction ss with
  | nil => rfl
  | cons a rest ih =>
    cases rest with
    | nil => simp [joinStr, elemStr, String.intercalate, String.intercalate.go]
    | cons b rest2 =>
      have hstep : joinStr ((a :: b :: rest2).map JsVal.str)
          = a ++ "," ++ joinStr ((b :: rest2).map JsVal.str) := by
        simp [joinStr, elemStr]
      rw [hstep, ih]
      simp only [String.intercalate, String.intercalate.go]
      rw [String.append_assoc, intercalate_go_append]
      simp [String.append_assoc]

theorem qsStringifyPieces_append (a b : List (String × JsVal)) :
    qsStringifyPieces (a ++ b) = qsStringifyPieces a ++ qsStringifyPieces b := by
  induction a with
  | nil => rfl
  | cons kv rest ih =>
    obtain ⟨k, v⟩ := kv
    simp [qsStringifyPieces, ih]

theorem encodeChars_append (a b : List Char) :
    encodeChars (a ++ b) = encodeChars a ++ encodeChars b := by
  induction a with
  | nil => rfl
  | cons c rest ih => simp [encodeChars, ih]

theorem qsEncode_append (a b : String) : qsEncode (a ++ b) = qsEncode a ++ qsEncode b := by
  unfold qsEncode
  rw [String.data_append, encodeChars_append]
  rfl

theorem intercalate_cons_cons (sep a b : String) (rest : List String) :
    sep.intercalate (a :: b :: rest) = a ++ sep ++ sep.intercalate (b :: rest) := by
  simp only [String.intercalate, String.intercalate.go]
  rw [String.append_assoc, intercalate_go_append, intercalate_go_append, String.append_assoc]

/-- The library writes each comma of a joined list as `%2C`. -/
theorem qsEncode_joined (ss : List String) :
    qsEncode (",".intercalate ss) = "%2C".intercalate (ss.map qsEncode) := by
  induction ss with
  | nil => rfl
  | cons a rest ih =>
    cases rest with
    | nil => simp [String.intercalate, String.intercalate.go]
    | cons b rest2 =>
      rw [intercalate_cons_cons, qsEncode_append, qsEncode_append, ih]
      simp only [List.map_cons]
      rw [intercalate_cons_cons]
      rfl

/-- The pieces the library writes for the query object of `getPathWithQs`. -/
theorem getPathQueryObject_pieces (params : EntryParams) :
    qsStringifyPieces (getPathQueryObject params)
      = (match params.id with
          | some id => if id.length ≠ 0 then ["id=" ++ qsEncode (joinStr id)] else []
          | none => [])
        ++ (match params.aliases with
          | some aliases =>
            if aliases.length ≠ 0 then ["alias=" ++ qsEncode (joinStr aliases)] else []
          | none => [])
        ++ (if truthy params.preview then ["preview=true"] else [])
        ++ (match params.atParam with
          | .text s => ["at=" ++ qsEncode s]
          | .date iso => ["at=" ++ qsEncode iso]
          | .other => [])
        ++ (qsPieces "typeId" params.typeId ++ qsPieces "offset" params.offset
          ++ qsPieces "size" params.size) := by
  have hid : qsEncode "id" = "id" := by decide
  have hal : qsEncode "alias" = "alias" := by decide
  have hat : qsEncode "at" = "at" := by decide
  have hpr : qsEncode "preview" ++ "=" ++ qsEncode "true" = "preview=true" := by decide
  rw [getPathQueryObject_eq]
  simp only [qsStringifyPieces_append]
  congr 1
  · congr 1
    · congr 1
      · congr 1
        · cases params.id with
          | none => rfl
          | some id =>
            by_cases h : id.length = 0
            · simp [h, qsStringifyPieces]
            · simp [h, qsStringifyPieces, qsPieces, hid, String.append_assoc]
        · cases params.aliases with
          | none => rfl
          | some al =>
            by_cases h : al.length = 0
            · simp [h, qsStringifyPieces]
            · simp [h, qsStringifyPieces, qsPieces, hal, String.append_assoc]
      · cases truthy params.preview
        · rfl
        · simp [qsStringifyPieces, qsPieces, hpr]
    · cases params.atParam <;> simp [qsStringifyPieces, qsPieces, hat, String.append_assoc]
  · simp [qsStringifyPieces]

/-- C13, as stated, fails: for `id: ["a", "b"]` the path the code returns has the comma
percent-encoded by `qs.stringify`; it contains no comma at all, so not the text `id=a,b`. -/
theorem getPathWithQs_encodes_comma :
    getPathWithQs sampleLibraryEnv "/content/entries" sampleParams
        = "/content/entries?id=a%2Cb&typeId=t"
      ∧ ',' ∉ (getPathWithQs sampleLibraryEnv "/content/entries" sampleParams).data :=
  ⟨by decide, by decide⟩

/-- C13, amended: the path is the given path, `?` and the rendering of one query object.
For a non-empty array of strings, `id` (respectively `alias`) is in that object with the
elements joined by commas as value, and the library writes it as the piece `id=` followed by
the encoded elements joined by `%2C`; for an empty or missing array the key is not in the
object and contributes no piece. -/
theorem getPathWithQs_array_parameters (env : Env) (path : String) (params : EntryParams) :
    getPathWithQs env path params = path ++ "?" ++ env.qsStringify (getPathQueryObject params)
      ∧ (∀ ss : List String, ss ≠ [] → params.id = some (ss.map JsVal.str) →
          lookupKey "id" (getPathQueryObject params) = .str (",".intercalate ss)
          ∧ (env.qsStringify = qsStringify → ∃ rest,
              getPathWithQs env path params
                = path ++ "?"
                  ++ "&".intercalate (("id=" ++ "%2C".intercalate (ss.map qsEncode)) :: rest)))
      ∧ (∀ ss : List String, ss ≠ [] → params.aliases = some (ss.map JsVal.str) →
          lookupKey "alias" (getPathQueryObject params) = .str (",".intercalate ss)
          ∧ (env.qsStringify = qsStringify → ∃ before rest,
              getPathWithQs env path params
                = path ++ "?"
                  ++ "&".intercalate
                      (before ++ ("alias=" ++ "%2C".intercalate (ss.map qsEncode)) :: rest)
              ∧ ∀ piece ∈ before, piece = "id=" ++ qsEncode
                  (match params.id with
                    | some id => joinStr id
                    | none => "")))
      ∧ (params.id = some [] ∨ params.id = none →
          "id" ∉ (getPathQueryObject params).map Prod.fst)
      ∧ (params.aliases = some [] ∨ params.aliases = none →
          "alias" ∉ (getPathQueryObject params).map Prod.fst)
      ∧ (env.qsStringify = qsStringify →
          getPathWithQs env path params
            = path ++ "?"
              ++ "&".intercalate
                ((match params.id with
                    | some id => if id.length ≠ 0 then ["id=" ++ qsEncode (joinStr id)] else []
                    | none => [])
                  ++ (match params.aliases with
                    | some aliases =>
                      if aliases.length ≠ 0 then ["alias=" ++ qsEncode (joinStr aliases)]
                      else []
                    | none => [])
                  ++ (if truthy params.preview then ["preview=true"] else [])
                  ++ (match params.atParam with
                    | .text s => ["at=" ++ qsEncode s]
                    | .date iso => ["at=" ++ qsEncode iso]
                    | .other => [])
                  ++ (qsPieces "typeId" params.typeId ++ qsPieces "offset" params.offset
                    ++ qsPieces "size" params.size))) := by
  have hlen : ∀ ss : List String, ss ≠ [] → (ss.map JsVal.str).length ≠ 0 := by
    intro ss hss
    cases ss with
    | nil => exact absurd rfl hss
    | cons a rest => simp
  have htext : env.qsStringify = qsStringify →
      getPathWithQs env path params
        = path ++ "?" ++ "&".intercalate (qsStringifyPieces (getPathQueryObject params)) := by
    intro henv
    unfold getPathWithQs
    rw [henv]
    rfl
  refine ⟨rfl, ?_, ?_, ?_, ?_, ?_⟩
  · intro ss hss hid
    constructor
    · rw [getPathQueryObject_eq, hid]
      simp [hss, joinStr_strings, lookupKey]
    · intro henv
      rw [htext henv, getPathQueryObject_pieces, hid]
      simp only [hlen ss hss, ne_eq, not_false_eq_true, if_true, joinStr_strings,
        qsEncode_joined, List.append_assoc, List.singleton_append]
      exact ⟨_, rfl⟩
  · intro ss hss hal
    constructor
    · rw [getPathQueryObject_eq, hal]
      rcases params.id with _ | id <;> (try by_cases hi : id.length = 0) <;>
        simp [hss, joinStr_strings, lookupKey, *]
    · intro henv
      rw [htext henv, getPathQueryObject_pieces, hal]
      simp only [hlen ss hss, ne_eq, not_false_eq_true, if_true, joinStr_strings,
        qsEncode_joined, List.append_assoc, List.singleton_append]
      refine ⟨_, _, rfl, ?_⟩
      intro piece hpiece
      rcases hid : params.id with _ | id
      · rw [hid] at hpiece
        simp at hpiece
      · rw [hid] at hpiece
        by_cases hi : id.length = 0
        · simp [hi] at hpiece
        · simpa [hi] using hpiece
  · intro h
    rw [getPathQueryObject_eq]
    rcases h with h | h <;> rw [h] <;>
      rcases params.aliases with _ | al <;> cases truthy params.preview <;>
      cases params.atParam <;> (try by_cases ha : al.length = 0) <;> simp [*]
  · intro h
    rw [getPathQueryObject_eq]
    rcases h with h | h <;> rw [h] <;>
      rcases params.id with _ | id <;> cases truthy params.preview <;>
      cases params.atParam <;> (try by_cases hi : id.length = 0) <;> simp [*]
  · intro henv
    rw [htext henv, getPathQueryObject_pieces]

/-- Witness of the amended C13: `id: ["a", "b"]` with an empty `alias`, rendered by the
library. -/
theorem getPathWithQs_array_parameters_witness :
    (["a", "b"] : List String) ≠ []
      ∧ sampleParams.id = some ((["a", "b"] : List String).map JsVal.str)
      ∧ sampleLibraryEnv.qsStringify = qsStringify
      ∧ lookupKey "id" (getPathQueryObject sampleParams) = .str "a,b"
      ∧ "alias" ∉ (getPathQueryObject sampleParams).map Prod.fst
      ∧ getPathWithQs sampleLibraryEnv "/content/entries" sampleParams
        = "/content/entries" ++ "?" ++ "&".intercalate (["id=a%2Cb"] ++ ["typeId=t"]) :=
  ⟨by decide, rfl, rfl,
    ((getPathWithQs_array_parameters sampleLibraryEnv "/content/entries" sampleParams).2.1
      ["a", "b"] (by decide) rfl).1,
    (getPathWithQs_array_parameters sampleLibraryEnv "/content/entries" sampleParams).2.2.2.2.1
      (Or.inl rfl),
    (getPathWithQs_array_parameters sampleLibraryEnv "/content/entries"
      sampleParams).2.2.2.2.2 rfl⟩

/-! ## Session creation: the request and the stored key -/

theorem getFetch_ok (env : Env) (path : String) (w : World) (res : Response)
    (hres : env.fetch (fetches w.trace) (getRequest env path w.config) = .ok res)
    (hstatus : res.status < 400) : (getFetch env path w).1 = .ok res := by
  unfold getFetch
  simp only [hres]
  simp [Nat.not_le.mpr hstatus]

theorem grab_ok (env : Env) (path : String) (w : World) (res : Response) (json : JsVal)
    (hres : env.fetch (fetches w.trace) (getRequest env path w.config) = .ok res)
    (hstatus : res.status < 400) (hjson : res.json = some json) :
    (grab env path w).1 = .ok json := by
  have hl : fetches (w.log "Requesting" [.str path]).trace = fetches w.trace := by
    simp [World.log, fetches_append, fetches]
  have hg := getFetch_ok env path (w.log "Requesting" [.str path]) res
    (by rw [hl]; exact hres) hstatus
  unfold grab
  simp only []
  split
  · next e w2 heq => rw [heq] at hg; simp at hg
  · next r w2 heq =>
    rw [heq] at hg
    simp only [Except.ok.injEq] at hg
    subst hg
    simp [hjson]

/-- C15, as stated, fails: the one request `createSession` makes is a GET, not a POST. -/
theorem createSession_request_is_get :
    (createSession sampleQueryEnv sampleNewWorld).1 = .ok (.str "fresh")
      ∧ fetches (createSession sampleQueryEnv sampleNewWorld).2.trace
          = [getRequest sampleQueryEnv "/session" (sampleConfig .undefined)]
      ∧ (getRequest sampleQueryEnv "/session" (sampleConfig .undefined)).method = Method.GET
      ∧ (getRequest sampleQueryEnv "/session" (sampleConfig .undefined)).method ≠ Method.POST :=
  ⟨rfl, rfl, rfl, by decide⟩

/-- C15, amended: `createSession` makes one GET request built from the path `/session`; when
it is answered with a status below 400 and a JSON object whose `sessionKey` is `k`, the
call resolves to `k` and `k` is stored as the session key of the client. -/
theorem createSession_stores_returned_key (env : Env) (w : World) (res : Response)
    (kvs : List (String × JsVal)) (k : JsVal)
    (hres : env.fetch (fetches w.trace) (sessionRequest env w.config) = .ok res)
    (hstatus : res.status < 400) (hjson : res.json = some (.obj kvs))
    (hk : lookupKey "sessionKey" kvs = k) :
    fetches (createSession env w).2.trace = fetches w.trace ++ [sessionRequest env w.config]
      ∧ (sessionRequest env w.config).method = Method.GET
      ∧ (sessionRequest env w.config).url = getRequestUrlWithQueryString env "/session" w.config
      ∧ (createSession env w).1 = .ok k
      ∧ (createSession env w).2.config = { w.config with sessionKey := k } := by
  have hg : (grab env "/session" (clearedWorld w)).1 = .ok (.obj kvs) := by
    apply grab_ok env "/session" (clearedWorld w) res (.obj kvs) _ hstatus hjson
    rw [clearedWorld_fetches, clearedWorld_config]
    exact hres
  have hok : (createSession env w).1 = .ok k := by
    rw [createSession_unfold]
    split
    · next e w2 heq => rw [heq] at hg; simp at hg
    · next json w2 heq =>
      rw [heq] at hg
      simp only [Except.ok.injEq] at hg
      subst hg
      simp [getProp, hk]
  refine ⟨createSession_fetches env w, rfl, ?_, hok, createSession_ok_sessionKey env w k hok⟩
  unfold sessionRequest getRequest getRequestUrlWithQueryString getQueryString getQueryObject
    clearedConfig
  split <;> rfl

/-- Witness of the amended C15 on a client holding a stale key. -/
theorem createSession_stores_returned_key_witness :
    sampleEnv.fetch (fetches sampleStaleWorld.trace)
        (sessionRequest sampleEnv sampleStaleWorld.config) = .ok sampleSession
      ∧ sampleSession.status < 400
      ∧ sampleSession.json = some (.obj [("sessionKey", .str "fresh")])
      ∧ lookupKey "sessionKey" [("sessionKey", JsVal.str "fresh")] = .str "fresh"
      ∧ (createSession sampleEnv sampleStaleWorld).1 = .ok (.str "fresh")
      ∧ (createSession sampleEnv sampleStaleWorld).2.config = sampleConfig (.str "fresh") :=
  ⟨rfl, by decide, rfl, rfl,
    (createSession_stores_returned_key sampleEnv sampleStaleWorld sampleSession
      [("sessionKey", .str "fresh")] (.str "fresh") rfl (by decide) rfl rfl).2.2.2.1,
    (createSession_stores_returned_key sampleEnv sampleStaleWorld sampleSession
      [("sessionKey", .str "fresh")] (.str "fresh") rfl (by decide) rfl rfl).2.2.2.2⟩

/-! ## Application logs: the message -/

theorem append_ne_self (s t : String) (ht : t.length ≠ 0) : s ++ t ≠ s := by
  intro h
  have hl := congrArg String.length h
  rw [String.length_append] at hl
  omega

/-- C19: for a supported level, `sendLog` posts (through the session wrapper) the JSON
rendering of a log event whose message is `details.message` followed by ` | Metadata: ` and
the JSON rendering of the array of the extra arguments.  The suffix is never empty, so the
message is never `details.message` alone; without extra arguments the array is empty and,
`JSON.stringify` rendering it as `[]`, the suffix is ` | Metadata: []`. -/
theorem sendLog_message_has_metadata_suffix (env : Env) (level : String) (details : LogDetails)
    (metadata : List JsVal) (w : World) (hlevel : level ∈ LOG_LEVELS) :
    sendLog env level details metadata w
        = withSessionHandling env
            (post env ("/application/log/" ++ level) (getLogEvent env details (.arr metadata))) w
      ∧ (postRequest env ("/application/log/" ++ level) w.config
            (getLogEvent env details (.arr metadata))).body
          = some (env.jsonStringify (getLogEvent env details (.arr metadata)))
      ∧ getProp (getLogEvent env details (.arr metadata)) "message"
          = some (.str (toStr details.message ++ " | Metadata: "
              ++ env.jsonStringify (.arr metadata)))
      ∧ (∀ m : String, details.message = .str m →
          getProp (getLogEvent env details (.arr metadata)) "message"
            = some (.str (m ++ " | Metadata: " ++ env.jsonStringify (.arr metadata))))
      ∧ (metadata = [] → env.jsonStringify (.arr []) = "[]" →
          getProp (getLogEvent env details (.arr metadata)) "message"
            = some (.str (toStr details.message ++ " | Metadata: []")))
      ∧ getProp (getLogEvent env details (.arr metadata)) "message"
          ≠ some (.str (toStr details.message)) := by
  have hmsg : getProp (getLogEvent env details (.arr metadata)) "message"
      = some (.str (toStr details.message ++ " | Metadata: "
          ++ env.jsonStringify (.arr metadata))) := by
    simp [getLogEvent, getProp, lookupKey, getLogMessage, truthy, String.append_assoc]
  refine ⟨?_, rfl, hmsg, ?_, ?_, ?_⟩
  · unfold sendLog postLog
    simp [hlevel]
  · intro m hm
    rw [hmsg, hm]
    rfl
  · intro hnil hjson
    rw [hmsg, hnil, hjson, String.append_assoc]
    rfl
  · rw [hmsg, String.append_assoc]
    intro h
    simp only [Option.some.injEq, JsVal.str.injEq] at h
    refine append_ne_self _ _ ?_ h
    rw [String.length_append]
    have : (" | Metadata: " : String).length = 13 := by decide
    omega

/-- Witness of C19: the level `info` with no extra argument. -/
theorem sendLog_message_has_metadata_suffix_witness :
    "info" ∈ LOG_LEVELS
      ∧ sampleDetails.message = .str "boom"
      ∧ sampleJsonEnv.jsonStringify (.arr []) = "[]"
      ∧ getProp (getLogEvent sampleJsonEnv sampleDetails (.arr [])) "message"
          = some (.str ("boom" ++ " | Metadata: []")) :=
  ⟨by decide, rfl, rfl,
    (sendLog_message_has_metadata_suffix sampleJsonEnv "info" sampleDetails [] sampleWorld
      (by decide)).2.2.2.2.1 rfl rfl⟩

end AppGrid
